import Mathlib

set_option linter.unusedSectionVars false

/-!
Verification of the core collision-detection and grid-warp systems of the
geometry-blast arcade game.

The TypeScript source is shallowly embedded over an arbitrary linear ordered
field `α` (instantiated at `ℝ` in the theorems), with the one numeric
primitive the code uses, `Math.sqrt`, passed explicitly as a function
`sq : α → α` (and `Math.sin` likewise for the grid-warp system) so that all
definitions stay computable; theorems instantiate them with `Real.sqrt` and
`Real.sin`.

Sections:
* `Vector2` (src/src/utils/Vector2.ts)
* entities and the collision system (src/unnamed/part_007)
* the grid-warp system (src/src/graphics/GridWarpSystem.ts, the enhanced
  second revision contained in that file, whose line numbers the claims cite)
-/

/-- 2D vector, from src/src/utils/Vector2.ts. -/
structure Vector2 (α : Type) where
  x : α
  y : α
deriving DecidableEq, Repr

variable {α : Type} [LinearOrderedField α]

/-- `Vector2.zero()`. -/
def Vector2.zero : Vector2 α := ⟨0, 0⟩

/-- `Vector2.add`. -/
def Vector2.add (v w : Vector2 α) : Vector2 α := ⟨v.x + w.x, v.y + w.y⟩

/-- `Vector2.subtract`. -/
def Vector2.subtract (v w : Vector2 α) : Vector2 α := ⟨v.x - w.x, v.y - w.y⟩

/-- `Vector2.multiply` (by a scalar). -/
def Vector2.multiply (v : Vector2 α) (s : α) : Vector2 α := ⟨v.x * s, v.y * s⟩

/-- `Vector2.divide` (by a scalar). -/
def Vector2.divide (v : Vector2 α) (s : α) : Vector2 α := ⟨v.x / s, v.y / s⟩

/-- `Vector2.magnitude`: `Math.sqrt(x*x + y*y)`; `sq` embeds `Math.sqrt`. -/
def Vector2.magnitude (sq : α → α) (v : Vector2 α) : α := sq (v.x * v.x + v.y * v.y)

/-- `Vector2.normalize`: the zero vector when the magnitude is zero,
otherwise the vector divided by its magnitude. -/
def Vector2.normalize (sq : α → α) (v : Vector2 α) : Vector2 α :=
  let mag := v.magnitude sq
  if mag = 0 then Vector2.zero else v.divide mag

/-- `Vector2.distance`: `this.subtract(other).magnitude()`. -/
def Vector2.distance (sq : α → α) (v w : Vector2 α) : α :=
  (v.subtract w).magnitude sq

/-- The entity capability the collision system consumes: position, radius and
the `active` flag.  `eid` stands in for JavaScript object identity (two list
occurrences of one entity share an `eid`; distinct entities have distinct
`eid`s). -/
structure Entity (α : Type) where
  eid : ℕ
  position : Vector2 α
  radius : α
  active : Bool
deriving DecidableEq, Repr

/-- An axis-aligned bounding box, as in `SpatialGrid.calculateBounds`. -/
structure Bounds (α : Type) where
  minX : α
  maxX : α
  minY : α
  maxY : α
deriving DecidableEq, Repr

/-- `SpatialGrid.calculateBounds`: the circle's bounding box.  The identical
formula is also inlined in `checkAABBCollision` and `detectCollisions`. -/
def calculateBounds (e : Entity α) : Bounds α :=
  ⟨e.position.x - e.radius, e.position.x + e.radius,
   e.position.y - e.radius, e.position.y + e.radius⟩

/-- `CollisionResult` from part_007. -/
structure CollisionResult (α : Type) where
  entityA : Entity α
  entityB : Entity α
  penetration : α
  normal : Vector2 α
  contactPoint : Vector2 α
deriving DecidableEq, Repr

/-- `CollisionSystem.checkCircleCollision` (part_007 lines 155-174). -/
def checkCircleCollision (sq : α → α) (entityA entityB : Entity α) :
    Option (CollisionResult α) :=
  let distance := entityA.position.distance sq entityB.position
  let combinedRadius := entityA.radius + entityB.radius
  if distance < combinedRadius then
    let penetration := combinedRadius - distance
    let normal := (entityB.position.subtract entityA.position).normalize sq
    let contactPoint := entityA.position.add (normal.multiply entityA.radius)
    some ⟨entityA, entityB, penetration, normal, contactPoint⟩
  else
    none

/-- `CollisionSystem.checkAABBCollision` (part_007 lines 176-195). -/
def checkAABBCollision (entityA entityB : Entity α) : Bool :=
  let boundsA := calculateBounds entityA
  let boundsB := calculateBounds entityB
  decide (¬(boundsA.maxX < boundsB.minX ∨ boundsA.minX > boundsB.maxX ∨
            boundsA.maxY < boundsB.minY ∨ boundsA.minY > boundsB.maxY))

/-- `CollisionSystem.checkCollision` (part_007 lines 198-206): AABB pre-check,
then the exact circle test. -/
def checkCollision (sq : α → α) (entityA entityB : Entity α) :
    Option (CollisionResult α) :=
  if checkAABBCollision entityA entityB then
    checkCircleCollision sq entityA entityB
  else
    none

/-! ### Basic facts about the embedded vector operations over `ℝ` -/

lemma Vector2.magnitude_eq_zero_iff (v : Vector2 ℝ) :
    v.magnitude Real.sqrt = 0 ↔ v = Vector2.zero := by
  unfold Vector2.magnitude Vector2.zero
  rw [Real.sqrt_eq_zero']
  constructor
  · intro h
    have hx := mul_self_nonneg v.x
    have hy := mul_self_nonneg v.y
    cases v with
    | mk x y =>
      simp only [Vector2.mk.injEq]
      constructor <;> nlinarith
  · intro h
    rw [h]
    norm_num

lemma Vector2.magnitude_normalize (v : Vector2 ℝ) (h : v ≠ Vector2.zero) :
    (v.normalize Real.sqrt).magnitude Real.sqrt = 1 := by
  have hm : v.magnitude Real.sqrt ≠ 0 := fun h0 => h ((magnitude_eq_zero_iff v).1 h0)
  unfold Vector2.normalize
  simp only [hm, if_false]
  unfold Vector2.divide Vector2.magnitude at *
  have hnn : (0:ℝ) ≤ v.x * v.x + v.y * v.y :=
    add_nonneg (mul_self_nonneg _) (mul_self_nonneg _)
  have hsq : Real.sqrt (v.x * v.x + v.y * v.y) * Real.sqrt (v.x * v.x + v.y * v.y)
      = v.x * v.x + v.y * v.y := Real.mul_self_sqrt hnn
  have harg : v.x * v.x + v.y * v.y ≠ 0 := by
    intro h0
    exact hm (by rw [h0, Real.sqrt_zero])
  have hq : v.x / Real.sqrt (v.x * v.x + v.y * v.y) * (v.x / Real.sqrt (v.x * v.x + v.y * v.y))
      + v.y / Real.sqrt (v.x * v.x + v.y * v.y) * (v.y / Real.sqrt (v.x * v.x + v.y * v.y))
      = (v.x * v.x + v.y * v.y) /
        (Real.sqrt (v.x * v.x + v.y * v.y) * Real.sqrt (v.x * v.x + v.y * v.y)) := by
    ring
  dsimp only
  rw [hq, hsq, div_self harg, Real.sqrt_one]

lemma Vector2.abs_sub_x_le_distance (v w : Vector2 ℝ) :
    |v.x - w.x| ≤ v.distance Real.sqrt w := by
  unfold Vector2.distance Vector2.subtract Vector2.magnitude
  dsimp only
  calc |v.x - w.x| = Real.sqrt ((v.x - w.x) * (v.x - w.x)) :=
        (Real.sqrt_mul_self_eq_abs _).symm
    _ ≤ _ := Real.sqrt_le_sqrt (le_add_of_nonneg_right (mul_self_nonneg _))

lemma Vector2.abs_sub_y_le_distance (v w : Vector2 ℝ) :
    |v.y - w.y| ≤ v.distance Real.sqrt w := by
  unfold Vector2.distance Vector2.subtract Vector2.magnitude
  dsimp only
  calc |v.y - w.y| = Real.sqrt ((v.y - w.y) * (v.y - w.y)) :=
        (Real.sqrt_mul_self_eq_abs _).symm
    _ ≤ _ := Real.sqrt_le_sqrt (le_add_of_nonneg_left (mul_self_nonneg _))

lemma Vector2.distance_eq_magnitude_swap (v w : Vector2 ℝ) :
    v.distance Real.sqrt w = (w.subtract v).magnitude Real.sqrt := by
  unfold Vector2.distance Vector2.subtract Vector2.magnitude
  ring_nf

/-! ### Narrow-phase facts (claim C1) -/

lemma checkCircleCollision_isSome_iff (sq : α → α) (a b : Entity α) :
    (checkCircleCollision sq a b).isSome = true ↔
      a.position.distance sq b.position < a.radius + b.radius := by
  simp only [checkCircleCollision]
  split <;> simp_all

lemma checkCircleCollision_eq_some (sq : α → α) (a b : Entity α)
    (res : CollisionResult α) (h : checkCircleCollision sq a b = some res) :
    res = ⟨a, b, a.radius + b.radius - a.position.distance sq b.position,
      (b.position.subtract a.position).normalize sq,
      a.position.add (((b.position.subtract a.position).normalize sq).multiply a.radius)⟩ := by
  simp only [checkCircleCollision] at h
  split at h
  · exact (Option.some.injEq _ _ ▸ h).symm
  · exact absurd h (by simp)

lemma checkAABBCollision_of_dist_lt (a b : Entity ℝ)
    (h : a.position.distance Real.sqrt b.position < a.radius + b.radius) :
    checkAABBCollision a b = true := by
  unfold checkAABBCollision calculateBounds
  have hx := Vector2.abs_sub_x_le_distance a.position b.position
  have hy := Vector2.abs_sub_y_le_distance a.position b.position
  rw [abs_le] at hx hy
  simp only [decide_eq_true_eq]
  push_neg
  refine ⟨by linarith [hx.1, hx.2], by linarith [hx.1, hx.2],
    by linarith [hy.1, hy.2], by linarith [hy.1, hy.2]⟩

/-- Claim C1 (amended): `checkCollision(A, B)` returns a non-null result iff
the distance `d` between the centers satisfies `d < rA + rB` (the AABB
pre-check never rejects truly overlapping circles); when non-null, the
result's penetration equals `rA + rB - d`, and, provided the two centers are
distinct, the normal is a unit vector pointing from A's center toward B's
center; when the centers coincide the normal is the zero vector. -/
theorem checkCollision_iff_and_normal (a b : Entity ℝ) :
    ((checkCollision Real.sqrt a b).isSome = true ↔
      a.position.distance Real.sqrt b.position < a.radius + b.radius) ∧
    (∀ res, checkCollision Real.sqrt a b = some res →
      res.penetration = a.radius + b.radius - a.position.distance Real.sqrt b.position ∧
      (a.position ≠ b.position →
        res.normal.magnitude Real.sqrt = 1 ∧
        res.normal = (b.position.subtract a.position).divide
          (a.position.distance Real.sqrt b.position)) ∧
      (a.position = b.position → res.normal = Vector2.zero)) := by
  have hiff : (checkCollision Real.sqrt a b).isSome = true ↔
      a.position.distance Real.sqrt b.position < a.radius + b.radius := by
    constructor
    · intro h
      unfold checkCollision at h
      split at h
      · exact (checkCircleCollision_isSome_iff Real.sqrt a b).1 h
      · simp at h
    · intro h
      unfold checkCollision
      rw [checkAABBCollision_of_dist_lt a b h, if_pos rfl]
      exact (checkCircleCollision_isSome_iff Real.sqrt a b).2 h
  refine ⟨hiff, fun res hres => ?_⟩
  have hcirc : checkCircleCollision Real.sqrt a b = some res := by
    unfold checkCollision at hres
    split at hres
    · exact hres
    · exact absurd hres (by simp)
  have hfields := checkCircleCollision_eq_some Real.sqrt a b res hcirc
  have hmagswap := Vector2.distance_eq_magnitude_swap a.position b.position
  refine ⟨by rw [hfields], fun hne => ?_, fun heq => ?_⟩
  · have hvne : b.position.subtract a.position ≠ Vector2.zero := by
      intro h0
      apply hne
      cases ha : a.position with
      | mk ax ay =>
        cases hb : b.position with
        | mk bx by' =>
          rw [ha, hb] at h0
          unfold Vector2.subtract Vector2.zero at h0
          simp only [Vector2.mk.injEq] at h0 ⊢
          constructor <;> [linarith [sub_eq_zero.1 h0.1]; linarith [sub_eq_zero.1 h0.2]]
    have hmne : (b.position.subtract a.position).magnitude Real.sqrt ≠ 0 :=
      fun h0 => hvne ((Vector2.magnitude_eq_zero_iff _).1 h0)
    constructor
    · rw [hfields]
      exact Vector2.magnitude_normalize _ hvne
    · rw [hfields]
      show (b.position.subtract a.position).normalize Real.sqrt = _
      unfold Vector2.normalize
      rw [hmagswap]
      simp only [hmne, if_false]
  · rw [hfields]
    show (b.position.subtract a.position).normalize Real.sqrt = Vector2.zero
    have : b.position.subtract a.position = Vector2.zero := by
      rw [heq]
      unfold Vector2.subtract Vector2.zero
      simp
    rw [this]
    unfold Vector2.normalize Vector2.zero Vector2.magnitude
    norm_num

/-- Counterexample to claim C1 as frozen: two coincident unit circles collide
(`d = 0 < 2`), and the returned normal is the zero vector, whose magnitude is
`0`, not a unit vector. -/
theorem checkCollision_unit_normal_cex :
    checkCollision Real.sqrt ⟨0, ⟨0, 0⟩, 1, true⟩ ⟨1, ⟨0, 0⟩, 1, true⟩ =
      some ⟨⟨0, ⟨0, 0⟩, 1, true⟩, ⟨1, ⟨0, 0⟩, 1, true⟩, 2, ⟨0, 0⟩, ⟨0, 0⟩⟩ ∧
    Vector2.magnitude Real.sqrt (⟨0, 0⟩ : Vector2 ℝ) ≠ 1 := by
  constructor
  · unfold checkCollision checkAABBCollision calculateBounds checkCircleCollision
      Vector2.distance Vector2.subtract Vector2.magnitude Vector2.normalize
      Vector2.divide Vector2.add Vector2.multiply Vector2.zero
    norm_num
  · unfold Vector2.magnitude
    norm_num

/-- Witness for the amended C1 at the spec's own example: A at (0,0) with
radius 5 and B at (8,0) with radius 4 collide with penetration 1 and unit
normal (1,0). -/
theorem checkCollision_iff_and_normal_witness :
    checkCollision Real.sqrt ⟨0, ⟨0, 0⟩, 5, true⟩ ⟨1, ⟨8, 0⟩, 4, true⟩ =
      some ⟨⟨0, ⟨0, 0⟩, 5, true⟩, ⟨1, ⟨8, 0⟩, 4, true⟩, 1, ⟨1, 0⟩, ⟨5, 0⟩⟩ ∧
    (1 : ℝ) = 5 + 4 - Vector2.distance Real.sqrt ⟨0, 0⟩ ⟨8, 0⟩ ∧
    Vector2.magnitude Real.sqrt (⟨1, 0⟩ : Vector2 ℝ) = 1 := by
  have h64 : Real.sqrt 64 = 8 := by
    rw [show (64:ℝ) = 8 ^ 2 by norm_num, Real.sqrt_sq (by norm_num : (0:ℝ) ≤ 8)]
  have hd : Vector2.distance Real.sqrt (⟨0, 0⟩ : Vector2 ℝ) ⟨8, 0⟩ = 8 := by
    unfold Vector2.distance Vector2.subtract Vector2.magnitude
    norm_num [h64]
  have hmag : Vector2.magnitude Real.sqrt (⟨8, 0⟩ : Vector2 ℝ) = 8 := by
    unfold Vector2.magnitude
    norm_num [h64]
  have hEq : checkCollision Real.sqrt ⟨0, ⟨0, 0⟩, 5, true⟩ ⟨1, ⟨8, 0⟩, 4, true⟩ =
      some ⟨⟨0, ⟨0, 0⟩, 5, true⟩, ⟨1, ⟨8, 0⟩, 4, true⟩, 1, ⟨1, 0⟩, ⟨5, 0⟩⟩ := by
    simp only [checkCollision, checkAABBCollision, calculateBounds, checkCircleCollision,
      Vector2.distance, Vector2.subtract, Vector2.magnitude, Vector2.normalize,
      Vector2.divide, Vector2.add, Vector2.multiply, Vector2.zero]
    norm_num [h64]
  have hne : (⟨0, 0⟩ : Vector2 ℝ) ≠ (⟨8, 0⟩ : Vector2 ℝ) := by
    simp only [ne_eq, Vector2.mk.injEq, not_and]
    norm_num
  refine ⟨hEq, ?_, ?_⟩
  · have := ((checkCollision_iff_and_normal ⟨0, ⟨0, 0⟩, 5, true⟩ ⟨1, ⟨8, 0⟩, 4, true⟩).2
      _ hEq).1
    simpa using this
  · have := (((checkCollision_iff_and_normal ⟨0, ⟨0, 0⟩, 5, true⟩ ⟨1, ⟨8, 0⟩, 4, true⟩).2
      _ hEq).2.1 hne).1
    simpa using this

/-! ### The spatial grid (part_007 lines 30-135)

The JavaScript `Map<string, CollisionData[]>` keyed by the string `"col,row"`
is embedded as an association list keyed by the pair `(col, row)` (the string
key determines the pair and vice versa).  A `CollisionData` object carries a
`tag`, the position of the `insert` call that allocated it, standing in for
JavaScript object identity: `SpatialGrid.query` deduplicates by object
identity of the `CollisionData` wrappers, i.e. by `tag`.  The `bounds` field
the source caches on `CollisionData` is never read on the paths embedded
here, so it is not stored. -/

/-- `CollisionData` from part_007 (entity reference plus allocation tag). -/
structure CollisionData (α : Type) where
  tag : ℕ
  entity : Entity α
deriving DecidableEq, Repr

/-- Association-list lookup, the embedding of `Map.get` (with `[]` for a
missing key, as used by `query`; `insert` creates the key first). -/
def lookupCell {α : Type} : List ((ℤ × ℤ) × List (CollisionData α)) → ℤ × ℤ →
    List (CollisionData α)
  | [], _ => []
  | (k', v) :: rest, k => if k = k' then v else lookupCell rest k

/-- Association-list update, the embedding of `Map.set`. -/
def setCell {α : Type} : List ((ℤ × ℤ) × List (CollisionData α)) → ℤ × ℤ →
    List (CollisionData α) → List ((ℤ × ℤ) × List (CollisionData α))
  | [], k, v => [(k, v)]
  | (k', v') :: rest, k, v =>
    if k = k' then (k, v) :: rest else (k', v') :: setCell rest k v

/-- `SpatialGrid` (part_007 lines 30-45). -/
structure SpatialGrid (α : Type) where
  cellSize : α
  cols : ℤ
  rows : ℤ
  cells : List ((ℤ × ℤ) × List (CollisionData α))
deriving Repr

variable [FloorRing α]

/-- The `SpatialGrid` constructor: `cols = ceil(width / cellSize)`,
`rows = ceil(height / cellSize)`, empty map. -/
def SpatialGrid.create (canvasWidth canvasHeight cellSize : α) : SpatialGrid α :=
  ⟨cellSize, ⌈canvasWidth / cellSize⌉, ⌈canvasHeight / cellSize⌉, []⟩

/-- The contents of one cell of the grid. -/
def SpatialGrid.getCellD (g : SpatialGrid α) (k : ℤ × ℤ) : List (CollisionData α) :=
  lookupCell g.cells k

/-- One `grid.get(key)!.push(collisionData)` step (creating the key if
missing, as lines 89-92 do). -/
def SpatialGrid.pushCell (g : SpatialGrid α) (k : ℤ × ℤ) (d : CollisionData α) :
    SpatialGrid α :=
  { g with cells := setCell g.cells k (lookupCell g.cells k ++ [d]) }

/-- The integers from `lo` to `hi` inclusive (empty when `hi < lo`), the
index set of `for (let c = lo; c <= hi; c++)`. -/
def cellRange (lo hi : ℤ) : List ℤ :=
  (List.range (hi + 1 - lo).toNat).map (fun (i : ℕ) => lo + (i : ℤ))

/-- The clamped cell ranges computed identically by `insert` (lines 81-84)
and `query` (lines 110-113), flattened to the list of visited `(col, row)`
keys in loop order. -/
def SpatialGrid.rangeKeys (g : SpatialGrid α) (b : Bounds α) : List (ℤ × ℤ) :=
  let startCol := max 0 ⌊b.minX / g.cellSize⌋
  let endCol := min (g.cols - 1) ⌊b.maxX / g.cellSize⌋
  let startRow := max 0 ⌊b.minY / g.cellSize⌋
  let endRow := min (g.rows - 1) ⌊b.maxY / g.cellSize⌋
  (cellRange startCol endCol).flatMap
    (fun col => (cellRange startRow endRow).map (fun row => (col, row)))

/-- `SpatialGrid.insert` (lines 73-95): push the data into every covered
cell. -/
def SpatialGrid.insertData (g : SpatialGrid α) (d : CollisionData α) : SpatialGrid α :=
  (g.rangeKeys (calculateBounds d.entity)).foldl (fun g' k => g'.pushCell k d) g

/-- Removal of every occurrence of a value from a list. -/
def eraseAllV {β : Type} [DecidableEq β] (a : β) : List β → List β
  | [] => []
  | b :: l => if b = a then eraseAllV a l else b :: eraseAllV a l

lemma eraseAllV_length_le {β : Type} [DecidableEq β] (a : β) (l : List β) :
    (eraseAllV a l).length ≤ l.length := by
  induction l with
  | nil => simp [eraseAllV]
  | cons b l ih =>
    unfold eraseAllV
    split
    · exact ih.trans (Nat.le_succ _)
    · simpa using ih

/-- First-occurrence deduplication: the embedding of collecting into a
JavaScript `Set` and reading it back with `Array.from` (insertion order,
first occurrence kept). -/
def dedupFirst {β : Type} [DecidableEq β] : List β → List β
  | [] => []
  | a :: l => a :: dedupFirst (eraseAllV a l)
termination_by l => l.length
decreasing_by
  simp only [List.length_cons]
  exact Nat.lt_succ_of_le (eraseAllV_length_le _ _)

/-- `SpatialGrid.query` (lines 107-126): collect the contents of every cell
in the clamped range and deduplicate by object identity. -/
def SpatialGrid.query (g : SpatialGrid α) (b : Bounds α) : List (CollisionData α) :=
  dedupFirst ((g.rangeKeys b).flatMap (fun k => g.getCellD k))

/-- `CollisionSystem` state: it owns one spatial grid. -/
structure CollisionSystem (α : Type) where
  grid : SpatialGrid α
deriving Repr

/-- The `CollisionSystem` constructor, with the default cell size 100. -/
def CollisionSystem.create (canvasWidth canvasHeight : α) : CollisionSystem α :=
  ⟨SpatialGrid.create canvasWidth canvasHeight 100⟩

/-- Position-tagging of a list, standing in for the fresh `CollisionData`
object allocated per `insert` call in `detectCollisions`. -/
def tagEntities {α : Type} : ℕ → List (Entity α) → List (ℕ × Entity α)
  | _, [] => []
  | n, e :: es => (n, e) :: tagEntities (n + 1) es

/-- The grid-rebuild phase of `detectCollisions` (lines 214-225): clear, then
insert every active entity of group B. -/
def buildGrid (g0 : SpatialGrid α) (groupB : List (Entity α)) : SpatialGrid α :=
  (tagEntities 0 groupB).foldl
    (fun g ie => if ie.2.active then g.insertData ⟨ie.1, ie.2⟩ else g) g0

/-- `CollisionSystem.detectCollisions` (lines 209-250), returning the list of
results passed to the callback, in callback order. -/
def detectCollisions (sq : α → α) (sys : CollisionSystem α)
    (groupA groupB : List (Entity α)) : List (CollisionResult α) :=
  let g1 := buildGrid { sys.grid with cells := [] } groupB
  groupA.flatMap (fun entityA =>
    if entityA.active then
      (g1.query (calculateBounds entityA)).flatMap (fun cd =>
        if cd.entity.active then
          match checkCollision sq entityA cd.entity with
          | some res => [res]
          | none => []
        else [])
    else [])

/-- `CollisionSystem.detectCollisionsWithTarget` (lines 253-268). -/
def detectCollisionsWithTarget (sq : α → α) (entities : List (Entity α))
    (target : Entity α) : List (CollisionResult α) :=
  if target.active then
    entities.flatMap (fun e =>
      if e.active then
        match checkCollision sq e target with
        | some res => [res]
        | none => []
      else [])
  else []

/-- Modelled from the spec: the naive O(n·m) pairwise `checkCollision` scan
over the same active entities, the reference implementation the
broad/narrow-phase equivalence property compares `detectCollisions`
against. -/
def bruteForceCollisions (sq : α → α) (groupA groupB : List (Entity α)) :
    List (CollisionResult α) :=
  groupA.flatMap (fun a =>
    if a.active then
      groupB.flatMap (fun b =>
        if b.active then
          match checkCollision sq a b with
          | some res => [res]
          | none => []
        else [])
    else [])

/-! ### Deduplication facts -/

lemma mem_eraseAllV {β : Type} [DecidableEq β] (a x : β) (l : List β) :
    x ∈ eraseAllV a l ↔ x ∈ l ∧ x ≠ a := by
  induction l with
  | nil => simp [eraseAllV]
  | cons b l ih =>
    unfold eraseAllV
    split
    · rename_i hba
      subst hba
      rw [ih]
      constructor
      · rintro ⟨h1, h2⟩
        exact ⟨List.mem_cons_of_mem _ h1, h2⟩
      · rintro ⟨h1, h2⟩
        rcases List.mem_cons.1 h1 with h | h
        · exact absurd h h2
        · exact ⟨h, h2⟩
    · rename_i hba
      simp only [List.mem_cons, ih]
      constructor
      · rintro (rfl | ⟨h1, h2⟩)
        · exact ⟨Or.inl rfl, hba⟩
        · exact ⟨Or.inr h1, h2⟩
      · rintro ⟨rfl | h1, h2⟩
        · exact Or.inl rfl
        · exact Or.inr ⟨h1, h2⟩

lemma mem_dedupFirst {β : Type} [DecidableEq β] (x : β) (l : List β) :
    x ∈ dedupFirst l ↔ x ∈ l := by
  induction l using dedupFirst.induct with
  | case1 => simp [dedupFirst]
  | case2 a l ih =>
    rw [dedupFirst]
    simp only [List.mem_cons]
    rw [ih, mem_eraseAllV]
    by_cases hxa : x = a
    · simp [hxa]
    · simp [hxa]

lemma nodup_dedupFirst {β : Type} [DecidableEq β] (l : List β) :
    (dedupFirst l).Nodup := by
  induction l using dedupFirst.induct with
  | case1 => simp [dedupFirst]
  | case2 a l ih =>
    rw [dedupFirst]
    refine List.nodup_cons.2 ⟨?_, ih⟩
    intro hmem
    exact ((mem_eraseAllV a a l).1 ((mem_dedupFirst a _).1 hmem)).2 rfl

/-! ### Shape of results returned by the collision pipeline -/

lemma checkCollision_eq_some_fields (sq : α → α) (a b : Entity α)
    (res : CollisionResult α) (h : checkCollision sq a b = some res) :
    res.entityA = a ∧ res.entityB = b := by
  unfold checkCollision at h
  split at h
  · rw [checkCircleCollision_eq_some sq a b res h]
    exact ⟨rfl, rfl⟩
  · exact absurd h (by simp)

/-- Claim C5: an entity whose `active` flag is false never appears in any
collision result produced by `detectCollisions` or
`detectCollisionsWithTarget`: every reported result has both participants
active. -/
theorem collision_results_active (sys : CollisionSystem ℝ)
    (groupA groupB entities : List (Entity ℝ)) (target : Entity ℝ) :
    ((detectCollisions Real.sqrt sys groupA groupB).all
        (fun res => res.entityA.active && res.entityB.active)) = true ∧
    ((detectCollisionsWithTarget Real.sqrt entities target).all
        (fun res => res.entityA.active && res.entityB.active)) = true := by
  constructor
  · rw [List.all_eq_true]
    intro res hres
    simp only [detectCollisions] at hres
    rw [List.mem_flatMap] at hres
    obtain ⟨a, _, hres⟩ := hres
    split at hres
    case isFalse => simp at hres
    case isTrue hact =>
      rw [List.mem_flatMap] at hres
      obtain ⟨cd, _, hres⟩ := hres
      split at hres
      case isFalse => simp at hres
      case isTrue hbact =>
        split at hres
        case h_2 => simp at hres
        case h_1 res' heq =>
          rw [List.mem_singleton] at hres
          subst hres
          obtain ⟨hA, hB⟩ := checkCollision_eq_some_fields Real.sqrt _ _ _ heq
          simp only [hA, hB, hact, hbact, Bool.and_self, decide_eq_true_eq]
  · rw [List.all_eq_true]
    intro res hres
    unfold detectCollisionsWithTarget at hres
    split at hres
    case isFalse => simp at hres
    case isTrue htact =>
      rw [List.mem_flatMap] at hres
      obtain ⟨e, _, hres⟩ := hres
      split at hres
      case isFalse => simp at hres
      case isTrue heact =>
        split at hres
        case h_2 => simp at hres
        case h_1 res' heq =>
          rw [List.mem_singleton] at hres
          subst hres
          obtain ⟨hA, hB⟩ := checkCollision_eq_some_fields Real.sqrt _ _ _ heq
          simp only [hA, hB, htact, heact, Bool.and_self, decide_eq_true_eq]

/-! ### Cell-content bookkeeping for the spatial grid -/

lemma lookupCell_setCell {α : Type} (cs : List ((ℤ × ℤ) × List (CollisionData α)))
    (k k' : ℤ × ℤ) (v : List (CollisionData α)) :
    lookupCell (setCell cs k v) k' = if k' = k then v else lookupCell cs k' := by
  induction cs with
  | nil =>
    unfold setCell lookupCell
    rfl
  | cons kv rest ih =>
    obtain ⟨k0, v0⟩ := kv
    unfold setCell
    split
    · rename_i hk
      subst hk
      unfold lookupCell
      split
      · rename_i h
        simp [h]
      · rename_i h
        simp [h]
    · rename_i hk
      unfold lookupCell
      split
      · rename_i h
        subst h
        have : ¬k' = k := fun hc => hk (hc ▸ rfl)
        simp [this]
      · rename_i h
        rw [ih]

lemma getCellD_pushCell (g : SpatialGrid α) (k k' : ℤ × ℤ) (d : CollisionData α) :
    (g.pushCell k d).getCellD k' =
      if k' = k then g.getCellD k' ++ [d] else g.getCellD k' := by
  unfold SpatialGrid.pushCell SpatialGrid.getCellD
  rw [lookupCell_setCell]
  split
  · rename_i h
    subst h
    rfl
  · rfl

lemma pushCell_params (g : SpatialGrid α) (k : ℤ × ℤ) (d : CollisionData α) :
    (g.pushCell k d).cellSize = g.cellSize ∧ (g.pushCell k d).cols = g.cols ∧
      (g.pushCell k d).rows = g.rows :=
  ⟨rfl, rfl, rfl⟩

lemma rangeKeys_congr (g g' : SpatialGrid α) (b : Bounds α)
    (hs : g'.cellSize = g.cellSize) (hc : g'.cols = g.cols) (hr : g'.rows = g.rows) :
    g'.rangeKeys b = g.rangeKeys b := by
  unfold SpatialGrid.rangeKeys
  rw [hs, hc, hr]

lemma getCellD_foldl_pushCell (ks : List (ℤ × ℤ)) (hnd : ks.Nodup)
    (g : SpatialGrid α) (d : CollisionData α) (k : ℤ × ℤ) :
    (ks.foldl (fun g' k' => g'.pushCell k' d) g).getCellD k =
      g.getCellD k ++ if k ∈ ks then [d] else [] := by
  induction ks generalizing g with
  | nil => simp
  | cons k0 ks ih =>
    rw [List.foldl_cons, ih (List.nodup_cons.1 hnd).2, getCellD_pushCell]
    by_cases hk : k = k0
    · subst hk
      have hnot : k ∉ ks := (List.nodup_cons.1 hnd).1
      simp [hnot]
    · simp [hk, List.mem_cons]

lemma foldl_pushCell_params (ks : List (ℤ × ℤ)) (g : SpatialGrid α) (d : CollisionData α) :
    (ks.foldl (fun g' k' => g'.pushCell k' d) g).cellSize = g.cellSize ∧
    (ks.foldl (fun g' k' => g'.pushCell k' d) g).cols = g.cols ∧
    (ks.foldl (fun g' k' => g'.pushCell k' d) g).rows = g.rows := by
  induction ks generalizing g with
  | nil => exact ⟨rfl, rfl, rfl⟩
  | cons k0 ks ih => exact ih (g.pushCell k0 d)

lemma nodup_cellRange (lo hi : ℤ) : (cellRange lo hi).Nodup := by
  unfold cellRange
  refine List.Nodup.map ?_ (List.nodup_range _)
  intro i j h
  simp only at h
  omega

lemma mem_cellRange (lo hi z : ℤ) : z ∈ cellRange lo hi ↔ lo ≤ z ∧ z ≤ hi := by
  unfold cellRange
  simp only [List.mem_map, List.mem_range]
  constructor
  · rintro ⟨i, hi', rfl⟩
    omega
  · rintro ⟨h1, h2⟩
    refine ⟨(z - lo).toNat, by omega, by omega⟩

lemma nodup_rangeKeys (g : SpatialGrid α) (b : Bounds α) : (g.rangeKeys b).Nodup := by
  unfold SpatialGrid.rangeKeys
  rw [List.nodup_flatMap]
  constructor
  · intro c _
    refine List.Nodup.map ?_ (nodup_cellRange _ _)
    intro r1 r2 h
    simpa using congrArg Prod.snd h
  · refine List.Pairwise.imp ?_ (nodup_cellRange _ _)
    intro c1 c2 hne p hp1 hp2
    simp only [Function.onFun, List.mem_map] at hp1 hp2
    obtain ⟨r1, _, rfl⟩ := hp1
    obtain ⟨r2, _, h2⟩ := hp2
    exact hne (by simpa using congrArg Prod.fst h2.symm)

lemma mem_rangeKeys (g : SpatialGrid α) (b : Bounds α) (k : ℤ × ℤ) :
    k ∈ g.rangeKeys b ↔
      (max 0 ⌊b.minX / g.cellSize⌋ ≤ k.1 ∧ k.1 ≤ min (g.cols - 1) ⌊b.maxX / g.cellSize⌋) ∧
      (max 0 ⌊b.minY / g.cellSize⌋ ≤ k.2 ∧ k.2 ≤ min (g.rows - 1) ⌊b.maxY / g.cellSize⌋) := by
  unfold SpatialGrid.rangeKeys
  rw [List.mem_flatMap]
  constructor
  · rintro ⟨c, hc, hk⟩
    rw [List.mem_map] at hk
    obtain ⟨r, hr, rfl⟩ := hk
    exact ⟨(mem_cellRange _ _ _).1 hc, (mem_cellRange _ _ _).1 hr⟩
  · rintro ⟨h1, h2⟩
    exact ⟨k.1, (mem_cellRange _ _ _).2 h1,
      List.mem_map.2 ⟨k.2, (mem_cellRange _ _ _).2 h2, rfl⟩⟩

lemma getCellD_insertData (g : SpatialGrid α) (d : CollisionData α) (k : ℤ × ℤ) :
    (g.insertData d).getCellD k =
      g.getCellD k ++
        if k ∈ g.rangeKeys (calculateBounds d.entity) then [d] else [] := by
  unfold SpatialGrid.insertData
  exact getCellD_foldl_pushCell _ (nodup_rangeKeys _ _) g d k

lemma insertData_params (g : SpatialGrid α) (d : CollisionData α) :
    (g.insertData d).cellSize = g.cellSize ∧ (g.insertData d).cols = g.cols ∧
      (g.insertData d).rows = g.rows :=
  foldl_pushCell_params _ g d

lemma buildGridAux_params (tl : List (ℕ × Entity α)) (g0 : SpatialGrid α) :
    (tl.foldl (fun g ie => if ie.2.active then g.insertData ⟨ie.1, ie.2⟩ else g) g0).cellSize
        = g0.cellSize ∧
    (tl.foldl (fun g ie => if ie.2.active then g.insertData ⟨ie.1, ie.2⟩ else g) g0).cols
        = g0.cols ∧
    (tl.foldl (fun g ie => if ie.2.active then g.insertData ⟨ie.1, ie.2⟩ else g) g0).rows
        = g0.rows := by
  induction tl generalizing g0 with
  | nil => exact ⟨rfl, rfl, rfl⟩
  | cons ie tl ih =>
    rw [List.foldl_cons]
    refine (ih _).imp (fun h => h.trans ?_) (fun h => h.imp (fun h => h.trans ?_)
      (fun h => h.trans ?_)) <;>
      (split <;> first
        | exact (insertData_params _ _).1
        | exact (insertData_params _ _).2.1
        | exact (insertData_params _ _).2.2
        | rfl)

lemma getCellD_buildGridAux (tl : List (ℕ × Entity α)) (g0 : SpatialGrid α) (k : ℤ × ℤ) :
    (tl.foldl (fun g ie => if ie.2.active then g.insertData ⟨ie.1, ie.2⟩ else g) g0).getCellD k
      = g0.getCellD k ++
        tl.flatMap (fun ie =>
          if ie.2.active = true ∧ k ∈ g0.rangeKeys (calculateBounds ie.2)
          then [⟨ie.1, ie.2⟩] else []) := by
  induction tl generalizing g0 with
  | nil => simp
  | cons ie tl ih =>
    rw [List.foldl_cons, List.flatMap_cons]
    by_cases hact : ie.2.active = true
    · rw [if_pos hact, ih (g0.insertData ⟨ie.1, ie.2⟩)]
      have hp := insertData_params g0 (⟨ie.1, ie.2⟩ : CollisionData α)
      have hcong : ∀ b, (g0.insertData ⟨ie.1, ie.2⟩).rangeKeys b = g0.rangeKeys b :=
        fun b => rangeKeys_congr g0 _ b hp.1 hp.2.1 hp.2.2
      rw [getCellD_insertData]
      simp only [hcong]
      by_cases hk : k ∈ g0.rangeKeys (calculateBounds ie.2)
      · rw [if_pos hk, if_pos ⟨hact, hk⟩, List.append_assoc]
      · rw [if_neg hk, if_neg (fun h => hk h.2), List.append_nil, List.nil_append]
    · rw [if_neg hact, ih g0, if_neg (fun h => hact h.1), List.nil_append]

/-! ### Query and tagging facts -/

lemma mem_query (g : SpatialGrid α) (b : Bounds α) (cd : CollisionData α) :
    cd ∈ g.query b ↔ ∃ k ∈ g.rangeKeys b, cd ∈ g.getCellD k := by
  unfold SpatialGrid.query
  rw [mem_dedupFirst, List.mem_flatMap]

lemma nodup_query (g : SpatialGrid α) (b : Bounds α) : (g.query b).Nodup :=
  nodup_dedupFirst _

lemma tagEntities_mem_entity {α : Type} (n : ℕ) (l : List (Entity α))
    (ie : ℕ × Entity α) (h : ie ∈ tagEntities n l) : ie.2 ∈ l := by
  induction l generalizing n with
  | nil => simp [tagEntities] at h
  | cons e l ih =>
    unfold tagEntities at h
    rcases List.mem_cons.1 h with h | h
    · subst h
      exact List.mem_cons_self _ _
    · exact List.mem_cons_of_mem _ (ih _ h)

lemma tagEntities_exists_tag {α : Type} (n : ℕ) (l : List (Entity α)) (e : Entity α)
    (h : e ∈ l) : ∃ i, (i, e) ∈ tagEntities n l := by
  induction l generalizing n with
  | nil => simp at h
  | cons e' l ih =>
    rcases List.mem_cons.1 h with h | h
    · subst h
      exact ⟨n, List.mem_cons_self _ _⟩
    · obtain ⟨i, hi⟩ := ih (n + 1) h
      exact ⟨i, List.mem_cons_of_mem _ hi⟩

lemma tagEntities_eid_unique {α : Type} (l : List (Entity α))
    (hN : (l.map Entity.eid).Nodup) (n : ℕ) (ie je : ℕ × Entity α)
    (hie : ie ∈ tagEntities n l) (hje : je ∈ tagEntities n l)
    (heid : ie.2.eid = je.2.eid) : ie = je := by
  induction l generalizing n with
  | nil => simp [tagEntities] at hie
  | cons e l ih =>
    rw [List.map_cons, List.nodup_cons] at hN
    unfold tagEntities at hie hje
    rcases List.mem_cons.1 hie with h1 | h1 <;> rcases List.mem_cons.1 hje with h2 | h2
    · rw [h1, h2]
    · exfalso
      apply hN.1
      rw [List.mem_map]
      refine ⟨je.2, tagEntities_mem_entity _ _ _ h2, ?_⟩
      rw [← heid, h1]
    · exfalso
      apply hN.1
      rw [List.mem_map]
      refine ⟨ie.2, tagEntities_mem_entity _ _ _ h1, ?_⟩
      rw [heid, h2]
    · exact ih hN.2 _ h1 h2

lemma getCellD_buildGrid (g0 : SpatialGrid α) (hg0 : g0.cells = [])
    (l : List (Entity α)) (k : ℤ × ℤ) :
    (buildGrid g0 l).getCellD k =
      (tagEntities 0 l).flatMap (fun ie =>
        if ie.2.active = true ∧ k ∈ g0.rangeKeys (calculateBounds ie.2)
        then [⟨ie.1, ie.2⟩] else []) := by
  unfold buildGrid
  rw [getCellD_buildGridAux]
  have hempty : g0.getCellD k = [] := by
    unfold SpatialGrid.getCellD
    rw [hg0]
    rfl
  rw [hempty, List.nil_append]

lemma mem_getCellD_buildGrid (g0 : SpatialGrid α) (hg0 : g0.cells = [])
    (l : List (Entity α)) (k : ℤ × ℤ) (cd : CollisionData α) :
    cd ∈ (buildGrid g0 l).getCellD k ↔
      ∃ ie ∈ tagEntities 0 l, ie.2.active = true ∧
        k ∈ g0.rangeKeys (calculateBounds ie.2) ∧ cd = ⟨ie.1, ie.2⟩ := by
  rw [getCellD_buildGrid g0 hg0, List.mem_flatMap]
  constructor
  · rintro ⟨ie, hie, hmem⟩
    split at hmem
    · rename_i hcond
      rw [List.mem_singleton] at hmem
      exact ⟨ie, hie, hcond.1, hcond.2, hmem⟩
    · simp at hmem
  · rintro ⟨ie, hie, ha, hk, rfl⟩
    exact ⟨ie, hie, by rw [if_pos ⟨ha, hk⟩]; exact List.mem_singleton.2 rfl⟩

lemma buildGrid_params (g0 : SpatialGrid α) (l : List (Entity α)) :
    (buildGrid g0 l).cellSize = g0.cellSize ∧ (buildGrid g0 l).cols = g0.cols ∧
      (buildGrid g0 l).rows = g0.rows :=
  buildGridAux_params _ g0

/-! ### The broad phase never loses an on-grid overlapping pair -/

/-- The entity's bounding box has a nonempty clamped cell range on each axis:
its box meets the grid's covered rectangle. -/
def boxMeetsGrid (g : SpatialGrid α) (e : Entity α) : Prop :=
  0 ≤ ⌊(e.position.x + e.radius) / g.cellSize⌋ ∧
  ⌊(e.position.x - e.radius) / g.cellSize⌋ ≤ g.cols - 1 ∧
  0 ≤ ⌊(e.position.y + e.radius) / g.cellSize⌋ ∧
  ⌊(e.position.y - e.radius) / g.cellSize⌋ ≤ g.rows - 1

lemma checkCollision_isSome_aabb (sq : α → α) (a b : Entity α)
    (res : CollisionResult α) (h : checkCollision sq a b = some res) :
    checkAABBCollision a b = true := by
  unfold checkCollision at h
  split at h
  · assumption
  · exact absurd h (by simp)

lemma exists_common_rangeKey (g : SpatialGrid α) (hs : 0 < g.cellSize)
    (hcols : 1 ≤ g.cols) (hrows : 1 ≤ g.rows) (a b : Entity α)
    (hra : 0 ≤ a.radius) (hrb : 0 ≤ b.radius)
    (hga : boxMeetsGrid g a) (hgb : boxMeetsGrid g b)
    (hover : checkAABBCollision a b = true) :
    ∃ k, k ∈ g.rangeKeys (calculateBounds a) ∧ k ∈ g.rangeKeys (calculateBounds b) := by
  unfold checkAABBCollision calculateBounds at hover
  simp only [decide_eq_true_eq] at hover
  push_neg at hover
  obtain ⟨h1, h2, h3, h4⟩ := hover
  obtain ⟨ha1, ha2, ha3, ha4⟩ := hga
  obtain ⟨hb1, hb2, hb3, hb4⟩ := hgb
  have mono : ∀ x y : α, x ≤ y → ⌊x / g.cellSize⌋ ≤ ⌊y / g.cellSize⌋ := by
    intro x y hxy
    exact Int.floor_le_floor (by gcongr)
  have hxaa : ⌊(a.position.x - a.radius) / g.cellSize⌋ ≤
      ⌊(a.position.x + a.radius) / g.cellSize⌋ := mono _ _ (by linarith)
  have hxbb : ⌊(b.position.x - b.radius) / g.cellSize⌋ ≤
      ⌊(b.position.x + b.radius) / g.cellSize⌋ := mono _ _ (by linarith)
  have hxab : ⌊(a.position.x - a.radius) / g.cellSize⌋ ≤
      ⌊(b.position.x + b.radius) / g.cellSize⌋ := mono _ _ (by linarith)
  have hxba : ⌊(b.position.x - b.radius) / g.cellSize⌋ ≤
      ⌊(a.position.x + a.radius) / g.cellSize⌋ := mono _ _ (by linarith)
  have hyaa : ⌊(a.position.y - a.radius) / g.cellSize⌋ ≤
      ⌊(a.position.y + a.radius) / g.cellSize⌋ := mono _ _ (by linarith)
  have hybb : ⌊(b.position.y - b.radius) / g.cellSize⌋ ≤
      ⌊(b.position.y + b.radius) / g.cellSize⌋ := mono _ _ (by linarith)
  have hyab : ⌊(a.position.y - a.radius) / g.cellSize⌋ ≤
      ⌊(b.position.y + b.radius) / g.cellSize⌋ := mono _ _ (by linarith)
  have hyba : ⌊(b.position.y - b.radius) / g.cellSize⌋ ≤
      ⌊(a.position.y + a.radius) / g.cellSize⌋ := mono _ _ (by linarith)
  refine ⟨(max 0 (max ⌊(a.position.x - a.radius) / g.cellSize⌋
      ⌊(b.position.x - b.radius) / g.cellSize⌋),
    max 0 (max ⌊(a.position.y - a.radius) / g.cellSize⌋
      ⌊(b.position.y - b.radius) / g.cellSize⌋)), ?_, ?_⟩ <;>
    (rw [mem_rangeKeys]; unfold calculateBounds; dsimp only;
     refine ⟨⟨?_, ?_⟩, ?_, ?_⟩ <;> omega)

/-! ### Membership characterizations of the two collision scans -/

lemma mem_detectCollisions (sq : α → α) (sys : CollisionSystem α)
    (groupA groupB : List (Entity α)) (res : CollisionResult α) :
    res ∈ detectCollisions sq sys groupA groupB ↔
      ∃ a ∈ groupA, a.active = true ∧
        ∃ cd ∈ (buildGrid { sys.grid with cells := [] } groupB).query (calculateBounds a),
          cd.entity.active = true ∧ checkCollision sq a cd.entity = some res := by
  simp only [detectCollisions]
  rw [List.mem_flatMap]
  constructor
  · rintro ⟨a, ha, h⟩
    split at h
    case isFalse => simp at h
    case isTrue hact =>
      rw [List.mem_flatMap] at h
      obtain ⟨cd, hcd, h⟩ := h
      split at h
      case isFalse => simp at h
      case isTrue hbact =>
        split at h
        case h_2 => simp at h
        case h_1 res' heq =>
          rw [List.mem_singleton] at h
          subst h
          exact ⟨a, ha, hact, cd, hcd, hbact, heq⟩
  · rintro ⟨a, ha, hact, cd, hcd, hbact, heq⟩
    refine ⟨a, ha, ?_⟩
    rw [if_pos hact, List.mem_flatMap]
    refine ⟨cd, hcd, ?_⟩
    rw [if_pos hbact, heq]
    exact List.mem_singleton.2 rfl

lemma mem_bruteForceCollisions (sq : α → α) (groupA groupB : List (Entity α))
    (res : CollisionResult α) :
    res ∈ bruteForceCollisions sq groupA groupB ↔
      ∃ a ∈ groupA, a.active = true ∧ ∃ b ∈ groupB, b.active = true ∧
        checkCollision sq a b = some res := by
  unfold bruteForceCollisions
  rw [List.mem_flatMap]
  constructor
  · rintro ⟨a, ha, h⟩
    split at h
    case isFalse => simp at h
    case isTrue hact =>
      rw [List.mem_flatMap] at h
      obtain ⟨b, hb, h⟩ := h
      split at h
      case isFalse => simp at h
      case isTrue hbact =>
        split at h
        case h_2 => simp at h
        case h_1 res' heq =>
          rw [List.mem_singleton] at h
          subst h
          exact ⟨a, ha, hact, b, hb, hbact, heq⟩
  · rintro ⟨a, ha, hact, b, hb, hbact, heq⟩
    refine ⟨a, ha, ?_⟩
    rw [if_pos hact, List.mem_flatMap]
    refine ⟨b, hb, ?_⟩
    rw [if_pos hbact, heq]
    exact List.mem_singleton.2 rfl

/-- Claim C2 (amended): `detectCollisions` reports exactly the pairs the
naive pairwise scan reports — no false negatives and no false positives from
the spatial grid — provided the grid has at least one column and row, a
positive cell size, and every active entity has a nonnegative radius and a
bounding box meeting the grid's covered cell rectangle.  (Without the
box-meets-grid condition the clamped cell ranges of `insert`/`query` can be
empty, silently dropping off-grid entities; see the counterexample.) -/
theorem detectCollisions_eq_bruteforce_onGrid (sys : CollisionSystem ℝ)
    (groupA groupB : List (Entity ℝ))
    (hs : 0 < sys.grid.cellSize) (hcols : 1 ≤ sys.grid.cols) (hrows : 1 ≤ sys.grid.rows)
    (hA : ∀ e ∈ groupA, e.active = true → 0 ≤ e.radius ∧ boxMeetsGrid sys.grid e)
    (hB : ∀ e ∈ groupB, e.active = true → 0 ≤ e.radius ∧ boxMeetsGrid sys.grid e)
    (res : CollisionResult ℝ) :
    res ∈ detectCollisions Real.sqrt sys groupA groupB ↔
      res ∈ bruteForceCollisions Real.sqrt groupA groupB := by
  set g0 : SpatialGrid ℝ := { sys.grid with cells := [] } with hg0def
  have hg0cells : g0.cells = [] := rfl
  have hg1p := buildGrid_params g0 groupB
  have hrk1 : ∀ b, (buildGrid g0 groupB).rangeKeys b = sys.grid.rangeKeys b := by
    intro b
    exact rangeKeys_congr sys.grid _ b hg1p.1 hg1p.2.1 hg1p.2.2
  have hrk0 : ∀ b, g0.rangeKeys b = sys.grid.rangeKeys b := by
    intro b
    exact rangeKeys_congr sys.grid g0 b rfl rfl rfl
  rw [mem_detectCollisions, mem_bruteForceCollisions]
  constructor
  · rintro ⟨a, ha, hact, cd, hcd, hbact, heq⟩
    rw [mem_query] at hcd
    obtain ⟨k, _, hcell⟩ := hcd
    rw [mem_getCellD_buildGrid g0 hg0cells] at hcell
    obtain ⟨ie, hie, _, _, rfl⟩ := hcell
    exact ⟨a, ha, hact, ie.2, tagEntities_mem_entity _ _ _ hie, hbact, heq⟩
  · rintro ⟨a, ha, hact, b, hb, hbact, heq⟩
    obtain ⟨hra, hga⟩ := hA a ha hact
    obtain ⟨hrb, hgb⟩ := hB b hb hbact
    obtain ⟨k, hka, hkb⟩ := exists_common_rangeKey sys.grid hs hcols hrows a b
      hra hrb hga hgb (checkCollision_isSome_aabb Real.sqrt a b res heq)
    obtain ⟨i, hib⟩ := tagEntities_exists_tag 0 groupB b hb
    refine ⟨a, ha, hact, ⟨i, b⟩, ?_, hbact, heq⟩
    rw [mem_query]
    refine ⟨k, ?_, ?_⟩
    · rw [hrk1]
      exact hka
    · rw [mem_getCellD_buildGrid g0 hg0cells]
      refine ⟨(i, b), hib, hbact, ?_, rfl⟩
      rw [hrk0]
      exact hkb

/-! ### At-most-once processing per pair (claim C6) -/

lemma countP_le_one_of_nodup_inj {β : Type} (L : List β) (hN : L.Nodup) (p : β → Bool)
    (hinj : ∀ x ∈ L, ∀ y ∈ L, p x = true → p y = true → x = y) : L.countP p ≤ 1 := by
  induction L with
  | nil => simp
  | cons x L ih =>
    rw [List.countP_cons]
    rcases List.nodup_cons.1 hN with ⟨hx, hL⟩
    by_cases hp : p x = true
    · have hzero : L.countP p = 0 := by
        rw [List.countP_eq_zero]
        intro y hy hpy
        exact hx ((hinj y (List.mem_cons_of_mem _ hy) x (List.mem_cons_self _ _)
          hpy hp) ▸ hy)
      simp [hp, hzero]
    · have ihres := ih hL (fun x hx' y hy' => hinj x (List.mem_cons_of_mem _ hx')
        y (List.mem_cons_of_mem _ hy'))
      simp only [hp]
      simpa using ihres

lemma sum_le_one_of_unique {β : Type} (l : List β) (f : β → ℕ) (q : β → Bool)
    (hbound : ∀ x ∈ l, f x ≤ if q x then 1 else 0)
    (hatmost : l.countP q ≤ 1) : (l.map f).sum ≤ 1 := by
  induction l with
  | nil => simp
  | cons x l ih =>
    rw [List.map_cons, List.sum_cons]
    rw [List.countP_cons] at hatmost
    by_cases hq : q x = true
    · rw [if_pos hq] at hatmost
      have hcl : l.countP q = 0 := by omega
      have hfx : f x ≤ 1 := by
        have := hbound x (List.mem_cons_self _ _)
        rwa [if_pos hq] at this
      have hrest : (l.map f).sum = 0 := by
        apply List.sum_eq_zero
        intro n hn
        rw [List.mem_map] at hn
        obtain ⟨y, hy, rfl⟩ := hn
        have hb := hbound y (List.mem_cons_of_mem _ hy)
        have hqy : q y = false := by
          rcases Bool.eq_false_or_eq_true (q y) with h | h
          · exfalso
            rw [List.countP_eq_zero] at hcl
            exact absurd h (by simpa using hcl y hy)
          · exact h
        rw [if_neg (by simp [hqy])] at hb
        omega
      omega
    · have hfx : f x = 0 := by
        have := hbound x (List.mem_cons_self _ _)
        rwa [if_neg hq, Nat.le_zero] at this
      rw [if_neg hq] at hatmost
      have := ih (fun y hy => hbound y (List.mem_cons_of_mem _ hy)) (by omega)
      omega

lemma detectCollisions_countP (sq : α → α) (sys : CollisionSystem α)
    (groupA groupB : List (Entity α)) (p : CollisionResult α → Bool) :
    (detectCollisions sq sys groupA groupB).countP p =
      (groupA.map (List.countP p ∘ fun entityA =>
        if entityA.active then
          ((buildGrid { sys.grid with cells := [] } groupB).query
              (calculateBounds entityA)).flatMap (fun cd =>
            if cd.entity.active then
              match checkCollision sq entityA cd.entity with
              | some res => [res]
              | none => []
            else [])
        else [])).sum := by
  simp only [detectCollisions]
  rw [List.countP_flatMap]

/-- Claim C6 (amended): within one `detectCollisions` pass, provided no
entity occurs more than once (by identity) in its group, the narrow phase and
the callback run at most once per `(A, B)` pair, even when B's bounding box
spans several grid cells: the query deduplicates the `CollisionData` wrappers
before processing.  (When the same entity object occurs twice in group B, two
distinct wrappers are inserted and the pair is processed once per occurrence;
see the counterexample.) -/
theorem pair_processed_at_most_once (sys : CollisionSystem ℝ)
    (groupA groupB : List (Entity ℝ))
    (hA : (groupA.map Entity.eid).Nodup) (hB : (groupB.map Entity.eid).Nodup)
    (i j : ℕ) :
    (detectCollisions Real.sqrt sys groupA groupB).countP
      (fun res => res.entityA.eid == i && res.entityB.eid == j) ≤ 1 := by
  set g0 : SpatialGrid ℝ := { sys.grid with cells := [] } with hg0def
  have hg0cells : g0.cells = [] := rfl
  rw [detectCollisions_countP]
  apply sum_le_one_of_unique _ _ (fun a => a.eid == i)
  · intro a _
    simp only [Function.comp]
    split
    next hact =>
      by_cases heid : a.eid = i
      · rw [if_pos (by simpa using heid)]
        rw [List.countP_flatMap]
        apply sum_le_one_of_unique _ _ (fun cd => cd.entity.eid == j)
        · intro cd _
          simp only [Function.comp]
          split
          next hbact =>
            split
            case h_2 =>
              split <;> simp
            case h_1 res heq =>
              obtain ⟨hEA, hEB⟩ := checkCollision_eq_some_fields Real.sqrt _ _ _ heq
              by_cases hj : cd.entity.eid = j
              · rw [if_pos (by simpa using hj)]
                simp only [List.countP_cons, List.countP_nil]
                split <;> omega
              · rw [if_neg (by simpa using hj)]
                simp only [List.countP_cons, List.countP_nil]
                rw [hEA, hEB]
                simp [heid, hj]
          next =>
            split <;> simp
        · apply countP_le_one_of_nodup_inj _ (nodup_query _ _)
          intro x hx y hy hpx hpy
          rw [mem_query] at hx hy
          obtain ⟨kx, _, hx⟩ := hx
          obtain ⟨ky, _, hy⟩ := hy
          rw [mem_getCellD_buildGrid g0 hg0cells] at hx hy
          obtain ⟨iex, hiex, _, _, rfl⟩ := hx
          obtain ⟨iey, hiey, _, _, rfl⟩ := hy
          simp only [beq_iff_eq] at hpx hpy
          have := tagEntities_eid_unique groupB hB 0 iex iey hiex hiey
            (by rw [hpx, hpy])
          rw [this]
      · rw [if_neg (by simpa using heid), Nat.le_zero, List.countP_eq_zero]
        intro res hres
        rw [List.mem_flatMap] at hres
        obtain ⟨cd, _, hres⟩ := hres
        split at hres
        next =>
          split at hres
          case h_2 => simp at hres
          case h_1 res' heq =>
            rw [List.mem_singleton] at hres
            subst hres
            obtain ⟨hEA, _⟩ := checkCollision_eq_some_fields Real.sqrt _ _ _ heq
            rw [hEA]
            simp [heid]
        next => simp at hres
    next =>
      split <;> simp
  · rw [show (fun a : Entity ℝ => a.eid == i) = ((fun n => n == i) ∘ Entity.eid) from rfl,
      ← List.countP_map]
    have := List.nodup_iff_count_le_one.1 hA i
    rwa [List.count] at this

/-! ### Reported pairs lie within the grid's covered rectangle (claim C10) -/

/-- Modelled from the claim's wording: the entity's bounding box is not
entirely outside the rectangle `[0, cols*cellSize) x [0, rows*cellSize)`
covered by the grid's cells (this rectangle contains, and with the default
cell size 100 can strictly exceed, the canvas rectangle). -/
def boxMeetsRect (g : SpatialGrid α) (e : Entity α) : Bool :=
  decide (0 ≤ e.position.x + e.radius ∧
          e.position.x - e.radius < g.cols * g.cellSize ∧
          0 ≤ e.position.y + e.radius ∧
          e.position.y - e.radius < g.rows * g.cellSize)

lemma nonneg_of_floor_div_nonneg (s x : α) (hs : 0 < s) (h : 0 ≤ ⌊x / s⌋) :
    0 ≤ x := by
  have h1 : (0:α) ≤ x / s := le_trans (by exact_mod_cast h) (Int.floor_le _)
  have h2 : 0 ≤ (x / s) * s := mul_nonneg h1 hs.le
  rwa [div_mul_cancel₀ x hs.ne'] at h2

lemma lt_of_floor_div_le (s x : α) (z : ℤ) (hs : 0 < s) (h : ⌊x / s⌋ ≤ z - 1) :
    x < z * s := by
  have h1 : x / s < (z : α) := by
    have := Int.floor_lt.1 (by omega : ⌊x / s⌋ < z)
    exact_mod_cast this
  calc x = (x / s) * s := (div_mul_cancel₀ x hs.ne').symm
    _ < (z : α) * s := by
      exact mul_lt_mul_of_pos_right h1 hs

lemma rangeKey_bounds_meet_rect (g : SpatialGrid α) (hs : 0 < g.cellSize)
    (e : Entity α) (k : ℤ × ℤ) (hk : k ∈ g.rangeKeys (calculateBounds e)) :
    boxMeetsRect g e = true := by
  rw [mem_rangeKeys] at hk
  unfold calculateBounds at hk
  dsimp only at hk
  obtain ⟨⟨hx1, hx2⟩, hy1, hy2⟩ := hk
  unfold boxMeetsRect
  rw [decide_eq_true_eq]
  refine ⟨?_, ?_, ?_, ?_⟩
  · exact nonneg_of_floor_div_nonneg _ _ hs (by omega)
  · exact lt_of_floor_div_le _ _ _ hs (by omega)
  · exact nonneg_of_floor_div_nonneg _ _ hs (by omega)
  · exact lt_of_floor_div_le _ _ _ hs (by omega)

/-- Claim C10 (amended): `detectCollisions` never invokes the callback for a
pair in which either entity's bounding box lies entirely outside the
rectangle `[0, cols*cellSize) x [0, rows*cellSize)` covered by the grid's
clamped cell ranges: an entity wholly outside that rectangle is neither
inserted into any cell nor matched by any query.  (The frozen claim's canvas
rectangle `[0, canvasWidth] x [0, canvasHeight]` is wrong when the canvas
size is not a multiple of the cell size: the grid rectangle is strictly
larger, and a pair of off-canvas entities inside the last cell is still
reported; see the counterexample.) -/
theorem detect_results_within_grid_rect (sys : CollisionSystem ℝ)
    (groupA groupB : List (Entity ℝ)) (hs : 0 < sys.grid.cellSize) :
    ((detectCollisions Real.sqrt sys groupA groupB).all
      (fun res => boxMeetsRect sys.grid res.entityA &&
        boxMeetsRect sys.grid res.entityB)) = true := by
  set g0 : SpatialGrid ℝ := { sys.grid with cells := [] } with hg0def
  have hg0cells : g0.cells = [] := rfl
  have hg1p := buildGrid_params g0 groupB
  rw [List.all_eq_true]
  intro res hres
  rw [mem_detectCollisions] at hres
  obtain ⟨a, _, _, cd, hcd, _, heq⟩ := hres
  obtain ⟨hEA, hEB⟩ := checkCollision_eq_some_fields Real.sqrt _ _ _ heq
  rw [mem_query] at hcd
  obtain ⟨k, hka, hcell⟩ := hcd
  have hka' : k ∈ sys.grid.rangeKeys (calculateBounds a) := by
    rwa [rangeKeys_congr sys.grid _ _ hg1p.1 hg1p.2.1 hg1p.2.2] at hka
  rw [mem_getCellD_buildGrid g0 hg0cells] at hcell
  obtain ⟨ie, _, _, hkb, rfl⟩ := hcell
  have hkb' : k ∈ sys.grid.rangeKeys (calculateBounds ie.2) := by
    rwa [rangeKeys_congr sys.grid g0 _ rfl rfl rfl] at hkb
  rw [hEA, hEB]
  rw [rangeKey_bounds_meet_rect sys.grid hs a k hka',
    rangeKey_bounds_meet_rect sys.grid hs ie.2 k hkb']
  rfl

/-! ### Concrete collision systems for witnesses and counterexamples -/

lemma create100_grid : (CollisionSystem.create (100:ℝ) 100).grid = ⟨100, 1, 1, []⟩ := by
  unfold CollisionSystem.create SpatialGrid.create
  have h : ⌈(100:ℝ)/100⌉ = 1 := by
    rw [show (100:ℝ)/100 = 1 by norm_num]
    exact Int.ceil_one
  rw [h]

lemma create150_grid : (CollisionSystem.create (150:ℝ) 150).grid = ⟨100, 2, 2, []⟩ := by
  unfold CollisionSystem.create SpatialGrid.create
  have h : ⌈(150:ℝ)/100⌉ = 2 := by
    rw [Int.ceil_eq_iff]
    constructor <;> norm_num
  rw [h]

/-- Counterexample to claim C2 as frozen: over a 100 x 100 canvas, two
coincident active circles centered at (300, 100) with radius 100 overlap (the
naive scan reports them), but both bounding boxes lie right of the grid's
covered columns, so the clamped ranges of `insert` and `query` are empty and
`detectCollisions` reports nothing — a false negative of the broad phase. -/
theorem detectCollisions_bruteforce_cex :
    detectCollisions Real.sqrt (CollisionSystem.create (100:ℝ) 100)
        [⟨0, ⟨300, 100⟩, 100, true⟩] [⟨1, ⟨300, 100⟩, 100, true⟩] = [] ∧
    bruteForceCollisions Real.sqrt
        [⟨0, ⟨300, 100⟩, 100, true⟩] [⟨1, ⟨300, 100⟩, 100, true⟩] ≠ [] := by
  constructor
  · simp only [detectCollisions, buildGrid, tagEntities, List.foldl_cons, List.foldl_nil]
    norm_num [create100_grid, SpatialGrid.insertData, SpatialGrid.rangeKeys, calculateBounds,
      cellRange, SpatialGrid.query, SpatialGrid.getCellD, lookupCell, dedupFirst,
      List.flatMap_cons, List.flatMap_nil, Int.toNat_of_nonpos]
  · unfold bruteForceCollisions
    norm_num [checkCollision, checkAABBCollision, calculateBounds, checkCircleCollision,
      Vector2.distance, Vector2.subtract, Vector2.magnitude,
      List.flatMap_cons, List.flatMap_nil]

/-- Counterexample to claim C6 as frozen: when the same entity (identity 1)
occurs twice in group B, two distinct `CollisionData` wrappers are inserted
into the cell, the query's identity-based deduplication keeps both, and the
narrow phase and callback run twice for the single pair (0, 1). -/
theorem pair_processed_twice_cex :
    (detectCollisions Real.sqrt (CollisionSystem.create (100:ℝ) 100)
        [⟨0, ⟨0, 0⟩, 100, true⟩]
        [⟨1, ⟨0, 0⟩, 100, true⟩, ⟨1, ⟨0, 0⟩, 100, true⟩]).countP
      (fun res => res.entityA.eid == 0 && res.entityB.eid == 1) = 2 := by
  have hb : ∀ (n : ℕ) (b : Bool),
      calculateBounds (⟨n, ⟨0, 0⟩, 100, b⟩ : Entity ℝ) = ⟨-100, 100, -100, 100⟩ := by
    intro n b
    unfold calculateBounds
    norm_num
  have hrk : ∀ (cs : List ((ℤ × ℤ) × List (CollisionData ℝ))),
      SpatialGrid.rangeKeys ⟨100, 1, 1, cs⟩ ⟨-100, 100, -100, 100⟩ = [(0, 0)] := by
    intro cs
    unfold SpatialGrid.rangeKeys cellRange
    norm_num [List.range_succ]
  have hg1 : SpatialGrid.insertData ⟨100, 1, 1, []⟩ ⟨0, ⟨1, ⟨0, 0⟩, 100, true⟩⟩ =
      (⟨100, 1, 1, [((0, 0), [⟨0, ⟨1, ⟨0, 0⟩, 100, true⟩⟩])]⟩ : SpatialGrid ℝ) := by
    unfold SpatialGrid.insertData
    rw [show (⟨0, ⟨1, ⟨0, 0⟩, 100, true⟩⟩ : CollisionData ℝ).entity
        = ⟨1, ⟨0, 0⟩, 100, true⟩ from rfl, hb, hrk]
    rfl
  have hg2 : SpatialGrid.insertData ⟨100, 1, 1, [((0, 0), [⟨0, ⟨1, ⟨0, 0⟩, 100, true⟩⟩])]⟩
        ⟨1, ⟨1, ⟨0, 0⟩, 100, true⟩⟩ =
      (⟨100, 1, 1, [((0, 0), [⟨0, ⟨1, ⟨0, 0⟩, 100, true⟩⟩,
        ⟨1, ⟨1, ⟨0, 0⟩, 100, true⟩⟩])]⟩ : SpatialGrid ℝ) := by
    unfold SpatialGrid.insertData
    rw [show (⟨1, ⟨1, ⟨0, 0⟩, 100, true⟩⟩ : CollisionData ℝ).entity
        = ⟨1, ⟨0, 0⟩, 100, true⟩ from rfl, hb, hrk]
    rfl
  have hbuild : buildGrid ⟨100, 1, 1, []⟩
      [⟨1, ⟨0, 0⟩, 100, true⟩, ⟨1, ⟨0, 0⟩, 100, true⟩] =
      (⟨100, 1, 1, [((0, 0), [⟨0, ⟨1, ⟨0, 0⟩, 100, true⟩⟩,
        ⟨1, ⟨1, ⟨0, 0⟩, 100, true⟩⟩])]⟩ : SpatialGrid ℝ) := by
    unfold buildGrid
    simp only [tagEntities, List.foldl_cons, List.foldl_nil]
    simp only [eq_self_iff_true, if_true, Nat.zero_add]
    rw [hg1, hg2]
  have hdedup : dedupFirst
      [(⟨0, ⟨1, ⟨0, 0⟩, 100, true⟩⟩ : CollisionData ℝ), ⟨1, ⟨1, ⟨0, 0⟩, 100, true⟩⟩] =
      [⟨0, ⟨1, ⟨0, 0⟩, 100, true⟩⟩, ⟨1, ⟨1, ⟨0, 0⟩, 100, true⟩⟩] := by
    have hne : (⟨1, ⟨1, ⟨0, 0⟩, 100, true⟩⟩ : CollisionData ℝ) ≠
        ⟨0, ⟨1, ⟨0, 0⟩, 100, true⟩⟩ := by
      simp
    rw [dedupFirst]
    rw [show eraseAllV (⟨0, ⟨1, ⟨0, 0⟩, 100, true⟩⟩ : CollisionData ℝ)
        [⟨1, ⟨1, ⟨0, 0⟩, 100, true⟩⟩] = [⟨1, ⟨1, ⟨0, 0⟩, 100, true⟩⟩] by
      unfold eraseAllV
      rw [if_neg hne]
      rfl]
    rw [dedupFirst, show eraseAllV (⟨1, ⟨1, ⟨0, 0⟩, 100, true⟩⟩ : CollisionData ℝ)
        ([] : List (CollisionData ℝ)) = [] from rfl, dedupFirst]
  have hquery : SpatialGrid.query
      ⟨100, 1, 1, [((0, 0), [⟨0, ⟨1, ⟨0, 0⟩, 100, true⟩⟩, ⟨1, ⟨1, ⟨0, 0⟩, 100, true⟩⟩])]⟩
      (calculateBounds (⟨0, ⟨0, 0⟩, 100, true⟩ : Entity ℝ)) =
      [⟨0, ⟨1, ⟨0, 0⟩, 100, true⟩⟩, ⟨1, ⟨1, ⟨0, 0⟩, 100, true⟩⟩] := by
    unfold SpatialGrid.query
    rw [hb, hrk, List.flatMap_cons, List.flatMap_nil]
    rw [show SpatialGrid.getCellD
        (⟨100, 1, 1, [((0, 0), [⟨0, ⟨1, ⟨0, 0⟩, 100, true⟩⟩,
          ⟨1, ⟨1, ⟨0, 0⟩, 100, true⟩⟩])]⟩ : SpatialGrid ℝ) (0, 0) =
        [⟨0, ⟨1, ⟨0, 0⟩, 100, true⟩⟩, ⟨1, ⟨1, ⟨0, 0⟩, 100, true⟩⟩] from rfl]
    rw [List.append_nil]
    exact hdedup
  have hcheck : checkCollision Real.sqrt (⟨0, ⟨0, 0⟩, 100, true⟩ : Entity ℝ)
      ⟨1, ⟨0, 0⟩, 100, true⟩ =
      some ⟨⟨0, ⟨0, 0⟩, 100, true⟩, ⟨1, ⟨0, 0⟩, 100, true⟩, 200, ⟨0, 0⟩, ⟨0, 0⟩⟩ := by
    unfold checkCollision checkAABBCollision calculateBounds checkCircleCollision
      Vector2.distance Vector2.subtract Vector2.magnitude Vector2.normalize
      Vector2.divide Vector2.add Vector2.multiply Vector2.zero
    norm_num
  rw [show (CollisionSystem.create (100:ℝ) 100) =
      (⟨(CollisionSystem.create (100:ℝ) 100).grid⟩ : CollisionSystem ℝ) from rfl,
    create100_grid]
  simp only [detectCollisions]
  rw [show ({ (⟨100, 1, 1, []⟩ : SpatialGrid ℝ) with cells := [] } : SpatialGrid ℝ)
      = (⟨100, 1, 1, []⟩ : SpatialGrid ℝ) from rfl]
  rw [hbuild]
  rw [List.flatMap_cons, List.flatMap_nil]
  dsimp only
  simp only [eq_self_iff_true, if_true]
  rw [hquery]
  rw [List.flatMap_cons, List.flatMap_cons, List.flatMap_nil]
  dsimp only
  simp only [eq_self_iff_true, if_true]
  rw [hcheck]
  simp only [List.append_nil, List.countP_cons, List.countP_nil]
  norm_num

/-- Counterexample to claim C10 as frozen: over a 150 x 150 canvas the grid
has 2 x 2 cells of size 100 covering `[0, 200) x [0, 200)`.  Two overlapping
active entities centered at (170, 50) with radius 5 have bounding boxes
`[165, 175] x [45, 55]` that lie entirely outside the canvas rectangle
`[0, 150] x [0, 150]` (165 > 150), yet they land in cell (1, 0) and the
callback is invoked for the pair. -/
theorem offcanvas_pair_reported_cex :
    (150:ℝ) < 165 ∧
    calculateBounds (⟨0, ⟨170, 50⟩, 5, true⟩ : Entity ℝ) = ⟨165, 175, 45, 55⟩ ∧
    detectCollisions Real.sqrt (CollisionSystem.create (150:ℝ) 150)
        [⟨0, ⟨170, 50⟩, 5, true⟩] [⟨1, ⟨170, 50⟩, 5, true⟩] ≠ [] := by
  have hb : ∀ (n : ℕ) (b : Bool),
      calculateBounds (⟨n, ⟨170, 50⟩, 5, b⟩ : Entity ℝ) = ⟨165, 175, 45, 55⟩ := by
    intro n b
    unfold calculateBounds
    norm_num
  have hrk : ∀ (cs : List ((ℤ × ℤ) × List (CollisionData ℝ))),
      SpatialGrid.rangeKeys ⟨100, 2, 2, cs⟩ ⟨165, 175, 45, 55⟩ = [(1, 0)] := by
    intro cs
    unfold SpatialGrid.rangeKeys cellRange
    norm_num [List.range_succ]
  have hg1 : SpatialGrid.insertData ⟨100, 2, 2, []⟩ ⟨0, ⟨1, ⟨170, 50⟩, 5, true⟩⟩ =
      (⟨100, 2, 2, [((1, 0), [⟨0, ⟨1, ⟨170, 50⟩, 5, true⟩⟩])]⟩ : SpatialGrid ℝ) := by
    unfold SpatialGrid.insertData
    rw [show (⟨0, ⟨1, ⟨170, 50⟩, 5, true⟩⟩ : CollisionData ℝ).entity
        = ⟨1, ⟨170, 50⟩, 5, true⟩ from rfl, hb, hrk]
    rfl
  have hbuild : buildGrid ⟨100, 2, 2, []⟩ [⟨1, ⟨170, 50⟩, 5, true⟩] =
      (⟨100, 2, 2, [((1, 0), [⟨0, ⟨1, ⟨170, 50⟩, 5, true⟩⟩])]⟩ : SpatialGrid ℝ) := by
    unfold buildGrid
    simp only [tagEntities, List.foldl_cons, List.foldl_nil]
    simp only [eq_self_iff_true, if_true]
    rw [hg1]
  have hquery : SpatialGrid.query
      ⟨100, 2, 2, [((1, 0), [⟨0, ⟨1, ⟨170, 50⟩, 5, true⟩⟩])]⟩
      (calculateBounds (⟨0, ⟨170, 50⟩, 5, true⟩ : Entity ℝ)) =
      [⟨0, ⟨1, ⟨170, 50⟩, 5, true⟩⟩] := by
    unfold SpatialGrid.query
    rw [hb, hrk, List.flatMap_cons, List.flatMap_nil]
    rw [show SpatialGrid.getCellD
        (⟨100, 2, 2, [((1, 0), [⟨0, ⟨1, ⟨170, 50⟩, 5, true⟩⟩])]⟩ : SpatialGrid ℝ) (1, 0) =
        [⟨0, ⟨1, ⟨170, 50⟩, 5, true⟩⟩] from rfl]
    rw [List.append_nil]
    rw [dedupFirst, show eraseAllV (⟨0, ⟨1, ⟨170, 50⟩, 5, true⟩⟩ : CollisionData ℝ)
        ([] : List (CollisionData ℝ)) = [] from rfl, dedupFirst]
  have hcheck : checkCollision Real.sqrt (⟨0, ⟨170, 50⟩, 5, true⟩ : Entity ℝ)
      ⟨1, ⟨170, 50⟩, 5, true⟩ =
      some ⟨⟨0, ⟨170, 50⟩, 5, true⟩, ⟨1, ⟨170, 50⟩, 5, true⟩, 10, ⟨0, 0⟩, ⟨170, 50⟩⟩ := by
    unfold checkCollision checkAABBCollision calculateBounds checkCircleCollision
      Vector2.distance Vector2.subtract Vector2.magnitude Vector2.normalize
      Vector2.divide Vector2.add Vector2.multiply Vector2.zero
    norm_num
  refine ⟨by norm_num, hb 0 true, ?_⟩
  rw [show (CollisionSystem.create (150:ℝ) 150) =
      (⟨(CollisionSystem.create (150:ℝ) 150).grid⟩ : CollisionSystem ℝ) from rfl,
    create150_grid]
  simp only [detectCollisions]
  rw [show ({ (⟨100, 2, 2, []⟩ : SpatialGrid ℝ) with cells := [] } : SpatialGrid ℝ)
      = (⟨100, 2, 2, []⟩ : SpatialGrid ℝ) from rfl]
  rw [hbuild]
  rw [List.flatMap_cons, List.flatMap_nil]
  dsimp only
  simp only [eq_self_iff_true, if_true]
  rw [hquery]
  rw [List.flatMap_cons, List.flatMap_nil]
  dsimp only
  simp only [eq_self_iff_true, if_true]
  rw [hcheck]
  simp

/-- Witness for the amended C2: over a 100 x 100 canvas with two overlapping
on-canvas active entities, the hypotheses hold and the reported sets agree. -/
theorem detectCollisions_eq_bruteforce_onGrid_witness :
    (0:ℝ) < (CollisionSystem.create (100:ℝ) 100).grid.cellSize ∧
    1 ≤ (CollisionSystem.create (100:ℝ) 100).grid.cols ∧
    1 ≤ (CollisionSystem.create (100:ℝ) 100).grid.rows ∧
    (∀ e ∈ [(⟨0, ⟨40, 50⟩, 10, true⟩ : Entity ℝ)], e.active = true →
      0 ≤ e.radius ∧ boxMeetsGrid (CollisionSystem.create (100:ℝ) 100).grid e) ∧
    (∀ e ∈ [(⟨1, ⟨50, 50⟩, 10, true⟩ : Entity ℝ)], e.active = true →
      0 ≤ e.radius ∧ boxMeetsGrid (CollisionSystem.create (100:ℝ) 100).grid e) ∧
    ((⟨⟨0, ⟨40, 50⟩, 10, true⟩, ⟨1, ⟨50, 50⟩, 10, true⟩, 10, ⟨1, 0⟩, ⟨50, 50⟩⟩ :
        CollisionResult ℝ) ∈
      detectCollisions Real.sqrt (CollisionSystem.create (100:ℝ) 100)
        [⟨0, ⟨40, 50⟩, 10, true⟩] [⟨1, ⟨50, 50⟩, 10, true⟩] ↔
      (⟨⟨0, ⟨40, 50⟩, 10, true⟩, ⟨1, ⟨50, 50⟩, 10, true⟩, 10, ⟨1, 0⟩, ⟨50, 50⟩⟩ :
        CollisionResult ℝ) ∈
      bruteForceCollisions Real.sqrt
        [⟨0, ⟨40, 50⟩, 10, true⟩] [⟨1, ⟨50, 50⟩, 10, true⟩]) := by
  have h1 : (0:ℝ) < (CollisionSystem.create (100:ℝ) 100).grid.cellSize := by
    rw [create100_grid]
    norm_num
  have h2 : 1 ≤ (CollisionSystem.create (100:ℝ) 100).grid.cols := by
    rw [create100_grid]
  have h3 : 1 ≤ (CollisionSystem.create (100:ℝ) 100).grid.rows := by
    rw [create100_grid]
  have h4 : ∀ e ∈ [(⟨0, ⟨40, 50⟩, 10, true⟩ : Entity ℝ)], e.active = true →
      0 ≤ e.radius ∧ boxMeetsGrid (CollisionSystem.create (100:ℝ) 100).grid e := by
    intro e he _
    rw [List.mem_singleton] at he
    subst he
    refine ⟨by norm_num, ?_⟩
    unfold boxMeetsGrid
    rw [create100_grid]
    norm_num
  have h5 : ∀ e ∈ [(⟨1, ⟨50, 50⟩, 10, true⟩ : Entity ℝ)], e.active = true →
      0 ≤ e.radius ∧ boxMeetsGrid (CollisionSystem.create (100:ℝ) 100).grid e := by
    intro e he _
    rw [List.mem_singleton] at he
    subst he
    refine ⟨by norm_num, ?_⟩
    unfold boxMeetsGrid
    rw [create100_grid]
    norm_num
  exact ⟨h1, h2, h3, h4, h5,
    detectCollisions_eq_bruteforce_onGrid (CollisionSystem.create (100:ℝ) 100)
      [⟨0, ⟨40, 50⟩, 10, true⟩] [⟨1, ⟨50, 50⟩, 10, true⟩] h1 h2 h3 h4 h5 _⟩

/-- Witness for the amended C6: with duplicate-free groups the pair (0, 1) is
processed at most once. -/
theorem pair_processed_at_most_once_witness :
    (([(⟨0, ⟨40, 50⟩, 10, true⟩ : Entity ℝ)].map Entity.eid).Nodup) ∧
    (([(⟨1, ⟨50, 50⟩, 10, true⟩ : Entity ℝ)].map Entity.eid).Nodup) ∧
    (detectCollisions Real.sqrt (CollisionSystem.create (100:ℝ) 100)
        [⟨0, ⟨40, 50⟩, 10, true⟩] [⟨1, ⟨50, 50⟩, 10, true⟩]).countP
      (fun res => res.entityA.eid == 0 && res.entityB.eid == 1) ≤ 1 := by
  refine ⟨by simp, by simp, ?_⟩
  exact pair_processed_at_most_once (CollisionSystem.create (100:ℝ) 100)
    [⟨0, ⟨40, 50⟩, 10, true⟩] [⟨1, ⟨50, 50⟩, 10, true⟩] (by simp) (by simp) 0 1

/-- Witness for the amended C10: with a positive cell size every reported
pair's bounding boxes meet the grid rectangle. -/
theorem detect_results_within_grid_rect_witness :
    (0:ℝ) < (CollisionSystem.create (100:ℝ) 100).grid.cellSize ∧
    ((detectCollisions Real.sqrt (CollisionSystem.create (100:ℝ) 100)
        [⟨0, ⟨40, 50⟩, 10, true⟩] [⟨1, ⟨50, 50⟩, 10, true⟩]).all
      (fun res => boxMeetsRect (CollisionSystem.create (100:ℝ) 100).grid res.entityA &&
        boxMeetsRect (CollisionSystem.create (100:ℝ) 100).grid res.entityB)) = true := by
  have h1 : (0:ℝ) < (CollisionSystem.create (100:ℝ) 100).grid.cellSize := by
    rw [create100_grid]
    norm_num
  exact ⟨h1, detect_results_within_grid_rect (CollisionSystem.create (100:ℝ) 100)
    [⟨0, ⟨40, 50⟩, 10, true⟩] [⟨1, ⟨50, 50⟩, 10, true⟩] h1⟩

/-! ### The grid warp system (src/src/graphics/GridWarpSystem.ts, second
revision)

`Math.sqrt` and `Math.sin` are bundled into `RealOps` and passed explicitly;
theorems instantiate them with `Real.sqrt` and `Real.sin`.  The randomized
jitter and mass of `initializeGrid` play no role in the claims, which
quantify over arbitrary lattice states (or idealized at-rest ones). -/

/-- The numeric primitives the warp system uses. -/
structure RealOps (α : Type) where
  sqrt : α → α
  sin : α → α

/-- The `'push' | 'pull'` influence type. -/
inductive WarpType where
  | push
  | pull
deriving DecidableEq, Repr

/-- `WarpInfluence` (GridWarpSystem.ts). -/
structure WarpInfluence (α : Type) where
  position : Vector2 α
  strength : α
  radius : α
  type : WarpType
  decay : α
deriving DecidableEq, Repr

/-- `GridPoint` (GridWarpSystem.ts). -/
structure GridPoint (α : Type) where
  x : α
  y : α
  targetX : α
  targetY : α
  velocity : Vector2 α
  mass : α
deriving DecidableEq, Repr

/-- The mutable state of a `GridWarpSystem` instance. -/
structure GridWarpState (α : Type) where
  gridSize : α
  canvasWidth : α
  canvasHeight : α
  cols : ℕ
  rows : ℕ
  gridPoints : List (List (GridPoint α))
  influences : List (WarpInfluence α)
  springConstant : α
  damping : α
  maxDisplacement : α
deriving Repr

/-- The per-step decay factor applied to one influence's strength
(`update`, lines 490-495): an extra 0.99 factor when the strength
exceeds 20. -/
def influenceStep (inf : WarpInfluence α) : α :=
  inf.strength * (if 20 < inf.strength then inf.decay * (99/100) else inf.decay)

/-- The decay-and-prune phase of `update` (lines 487-501): each influence's
strength is multiplied by its decay factor and influences whose new strength
is below 1 are removed on the same step.  (The source's backward splice loop
treats each element independently, which is exactly `filterMap`.) -/
def updateInfluences (l : List (WarpInfluence α)) : List (WarpInfluence α) :=
  l.filterMap (fun inf =>
    let s' := influenceStep inf
    if s' < 1 then none else some { inf with strength := s' })

/-- The falloff curve of the cell-force computation (lines 541-545): the
normalized distance is floored at 0.1 before it is squared, and the
denominator carries a constant 0.2, so the falloff is finite and maximal at
close range. -/
def warpFalloff (radius distance : α) : α :=
  let normalizedDistance := max (1/10) (distance / radius)
  1 / (normalizedDistance * normalizedDistance + 1/5)

/-- One influence's force contribution to one coarse cell center (lines
537-558): zero when the center is farther than `radius + cellSize`; otherwise
a falloff-scaled vector along the normalized direction from the influence to
the center (negated for pull influences). -/
def influenceCellContrib (ops : RealOps α) (cellSize : α) (inf : WarpInfluence α)
    (cellCenter : Vector2 α) : Vector2 α :=
  let distance := cellCenter.distance ops.sqrt inf.position
  if distance < inf.radius + cellSize then
    let forceMagnitude := inf.strength * warpFalloff inf.radius distance
    let direction := (cellCenter.subtract inf.position).normalize ops.sqrt
    match inf.type with
    | .push => ⟨direction.x * forceMagnitude, direction.y * forceMagnitude⟩
    | .pull => ⟨-(direction.x * forceMagnitude), -(direction.y * forceMagnitude)⟩
  else
    Vector2.zero

/-- The scatter range of one influence (lines 521-531): the cells within
`ceil(radius / cellSize)` of the influence's own cell, clamped to the map. -/
def inScatterRange [FloorRing α] (cellSize : α) (cellRows cellCols : ℤ)
    (inf : WarpInfluence α) (r c : ℤ) : Bool :=
  let cellX := ⌊inf.position.x / cellSize⌋
  let cellY := ⌊inf.position.y / cellSize⌋
  let cr := ⌈inf.radius / cellSize⌉
  decide (cellY - cr ≤ r ∧ r ≤ cellY + cr ∧ cellX - cr ≤ c ∧ c ≤ cellX + cr ∧
    0 ≤ r ∧ r < cellRows ∧ 0 ≤ c ∧ c < cellCols)

/-- The aggregated force and contribution count of one cell of the influence
map (lines 509-568), as a sum over the influence list (real addition is
commutative and associative, so the scatter order of the source does not
matter). -/
def influenceMapCell [FloorRing α] (ops : RealOps α) (cellSize : α)
    (cellRows cellCols : ℤ) (l : List (WarpInfluence α)) (r c : ℤ) :
    Vector2 α × ℕ :=
  l.foldl (fun acc inf =>
    if inScatterRange cellSize cellRows cellCols inf r c then
      let cellCenter : Vector2 α := ⟨((c : α) + 1/2) * cellSize, ((r : α) + 1/2) * cellSize⟩
      if cellCenter.distance ops.sqrt inf.position < inf.radius + cellSize then
        (acc.1.add (influenceCellContrib ops cellSize inf cellCenter), acc.2 + 1)
      else acc
    else acc) (Vector2.zero, 0)

/-- The displacement limiting at the end of the per-point update (lines
651-670): when the distance of the integrated position from the rest position
(`ox`, `oy`) exceeds the maximum, scale it back softly and reflect the
velocity; otherwise position and velocity pass through unchanged. -/
def softClamp (ops : RealOps α) (maxDisplacement ox oy : α)
    (pos vel : Vector2 α) : Vector2 α × Vector2 α :=
  let currentDisplacement :=
    ops.sqrt ((pos.x - ox) * (pos.x - ox) + (pos.y - oy) * (pos.y - oy))
  if maxDisplacement < currentDisplacement then
    let excess := currentDisplacement - maxDisplacement
    let dampingFactor := 1 - min 1 (excess / 10)
    let ratio := maxDisplacement / currentDisplacement
    (⟨ox + (pos.x - ox) * ratio * dampingFactor,
      oy + (pos.y - oy) * ratio * dampingFactor⟩,
     ⟨vel.x * (-(1/2)), vel.y * (-(1/2))⟩)
  else
    (pos, vel)

/-- The per-point integration of `update` (lines 571-671): snap-to-rest in
instant mode, non-linear spring force, damping with a per-point `sin`
variation, velocity/position integration, and the soft displacement clamp
with velocity reflection (`softClamp`). -/
def updatePoint (ops : RealOps α) (springConstant damping maxDisplacement gridSize : α)
    (fixedDeltaTime : α) (force : Vector2 α) (row col : ℕ) (p : GridPoint α) :
    GridPoint α :=
  let originalX := (col : α) * gridSize
  let originalY := (row : α) * gridSize
  let dx := originalX - p.x
  let dy := originalY - p.y
  let displacement := ops.sqrt (dx * dx + dy * dy)
  let snapped :=
    if 35/100 ≤ springConstant then
      if displacement < 8/10 then
        { p with x := originalX, y := originalY,
                 velocity := ⟨p.velocity.x * (3/10), p.velocity.y * (3/10)⟩ }
      else p
    else p
  let springMultiplier : α :=
    if 35/100 ≤ springConstant then 6
    else if 2/10 ≤ springConstant then 5
    else 1
  let springFactor := springConstant * springMultiplier * (1 + displacement * (5/100))
  let springForceX := dx * springFactor
  let springForceY := dy * springFactor
  let massReciprocal := 1 / p.mass
  let vx1 := snapped.velocity.x + (force.x + springForceX) * fixedDeltaTime * massReciprocal
  let vy1 := snapped.velocity.y + (force.y + springForceY) * fixedDeltaTime * massReciprocal
  let pointDamping := damping + ops.sin ((col : α) + (row : α)) * (1/100)
  let dampingMultiplier : α := if 35/100 ≤ springConstant then 12/10 else 1
  let vx2 := vx1 * (pointDamping * dampingMultiplier)
  let vy2 := vy1 * (pointDamping * dampingMultiplier)
  let nx := snapped.x + vx2 * fixedDeltaTime
  let ny := snapped.y + vy2 * fixedDeltaTime
  let clamped := softClamp ops maxDisplacement originalX originalY ⟨nx, ny⟩ ⟨vx2, vy2⟩
  { snapped with x := clamped.1.x, y := clamped.1.y, velocity := clamped.2 }

/-- `GridWarpSystem.update` (lines 482-673): cap the timestep at 1/30, decay
and prune the influences, aggregate their forces on the coarse cell map
(cells of size `2 * gridSize`), then integrate every lattice point. -/
def update [FloorRing α] (ops : RealOps α) (st : GridWarpState α) (deltaTime : α) :
    GridWarpState α :=
  let fixedDeltaTime := min deltaTime (1/30)
  let influences' := updateInfluences st.influences
  let cellSize := st.gridSize * 2
  let cellCols := ⌈st.canvasWidth / cellSize⌉ + 1
  let cellRows := ⌈st.canvasHeight / cellSize⌉ + 1
  let newPoints := (List.range st.rows).map (fun row =>
    (List.range st.cols).map (fun col =>
      let p := (st.gridPoints.getD row []).getD col ⟨0, 0, 0, 0, Vector2.zero, 1⟩
      let cellRow := ⌊(row : α) * st.gridSize / cellSize⌋
      let cellCol := ⌊(col : α) * st.gridSize / cellSize⌋
      let cell :=
        if 0 ≤ cellRow ∧ cellRow < cellRows ∧ 0 ≤ cellCol ∧ cellCol < cellCols then
          influenceMapCell ops cellSize cellRows cellCols influences' cellRow cellCol
        else (Vector2.zero, 0)
      let force := if 0 < cell.2 then cell.1 else Vector2.zero
      updatePoint ops st.springConstant st.damping st.maxDisplacement st.gridSize
        fixedDeltaTime force row col p))
  { st with influences := influences', gridPoints := newPoints }

/-- `addExplosionWarp` (lines 410-433): the first component is the influence
pushed synchronously; the second is what the 100 ms `setTimeout` callback
appends later — a secondary pull influence, but only when `strength > 1.0`. -/
def addExplosionWarp (position : Vector2 α) (strength : α) :
    List (WarpInfluence α) × List (WarpInfluence α) :=
  ([⟨position, strength * 120, 35, .push, 91/100⟩],
   if 1 < strength then [⟨position, strength * 60, 20, .pull, 93/100⟩] else [])

/-- The four healing-speed presets. -/
inductive HealingSpeed where
  | slow
  | medium
  | fast
  | instant
deriving DecidableEq, Repr

/-- `setHealingSpeed` (lines 822-843): the `(springConstant, damping)` pair
selected by each preset. -/
def setHealingSpeed : HealingSpeed → α × α
  | .slow => (8/100, 95/100)
  | .medium => (15/100, 92/100)
  | .fast => (25/100, 85/100)
  | .instant => (4/10, 75/100)

/-- Modelled from the spec: the mean distance of the lattice points from
their rest positions, the "mean residual displacement" metric of the
healing-speed ordering property. -/
def meanDisplacement (ops : RealOps α) (st : GridWarpState α) : α :=
  (((List.range st.rows).map (fun row =>
    ((List.range st.cols).map (fun col =>
      let p := (st.gridPoints.getD row []).getD col ⟨0, 0, 0, 0, Vector2.zero, 1⟩
      ops.sqrt ((p.x - (col : α) * st.gridSize) * (p.x - (col : α) * st.gridSize) +
        (p.y - (row : α) * st.gridSize) * (p.y - (row : α) * st.gridSize)))).sum)).sum) /
    ((st.rows : α) * (st.cols : α))

/-! ### Explosion warp (claim C7) -/

/-- Claim C7 (amended): every `addExplosionWarp(position, strength)` call
immediately adds one strong small-radius push influence at `position`; the
delayed secondary weaker pull influence at the same position is added only
when `strength > 1.0`, and is not added at all when `strength ≤ 1`. -/
theorem addExplosionWarp_spec (position : Vector2 ℝ) (strength : ℝ) :
    (addExplosionWarp position strength).1 =
      [⟨position, strength * 120, 35, .push, 91/100⟩] ∧
    (1 < strength →
      (addExplosionWarp position strength).2 =
        [⟨position, strength * 60, 20, .pull, 93/100⟩] ∧
      strength * 60 < strength * 120) ∧
    (strength ≤ 1 → (addExplosionWarp position strength).2 = []) := by
  refine ⟨rfl, fun h => ⟨?_, ?_⟩, fun h => ?_⟩
  · unfold addExplosionWarp
    rw [if_pos h]
  · nlinarith
  · unfold addExplosionWarp
    dsimp only
    rw [if_neg (not_lt.2 h)]

/-- Counterexample to claim C7 as frozen: a call with strength 1/2 adds no
secondary pull influence at all — the delayed callback is gated on
`strength > 1.0`. -/
theorem addExplosionWarp_no_secondary_cex :
    (addExplosionWarp (⟨0, 0⟩ : Vector2 ℝ) (1/2)).2 = [] := by
  unfold addExplosionWarp
  norm_num

/-- Witness for the amended C7 at strength 2. -/
theorem addExplosionWarp_spec_witness :
    (addExplosionWarp (⟨0, 0⟩ : Vector2 ℝ) 2).1 =
      [⟨⟨0, 0⟩, 2 * 120, 35, .push, 91/100⟩] ∧
    (addExplosionWarp (⟨0, 0⟩ : Vector2 ℝ) 2).2 =
      [⟨⟨0, 0⟩, 2 * 60, 20, .pull, 93/100⟩] ∧
    (2 : ℝ) * 60 < 2 * 120 := by
  have h := addExplosionWarp_spec (⟨0, 0⟩ : Vector2 ℝ) 2
  exact ⟨h.1, (h.2.1 (by norm_num)).1, (h.2.1 (by norm_num)).2⟩

/-! ### Influence decay and termination (claim C4) -/

/-- The per-influence evolution across update steps: `influenceIter n inf`
is the influence's state after `n` decay steps, or `none` once it has been
removed. -/
def influenceIter : ℕ → WarpInfluence α → Option (WarpInfluence α)
  | 0, inf => some inf
  | n + 1, inf =>
    let s' := influenceStep inf
    if s' < 1 then none else influenceIter n { inf with strength := s' }

lemma updateInfluences_iterate (n : ℕ) (l : List (WarpInfluence α)) :
    updateInfluences^[n] l = l.filterMap (influenceIter n) := by
  induction n generalizing l with
  | zero =>
    simp [influenceIter]
  | succ n ih =>
    rw [Function.iterate_succ_apply, ih, updateInfluences, List.filterMap_filterMap]
    congr 1
    funext inf
    show (if influenceStep inf < 1 then none
      else some { inf with strength := influenceStep inf }).bind (influenceIter n) =
      influenceIter (n + 1) inf
    rw [influenceIter]
    split
    · rfl
    · rfl

lemma influenceIter_none_step (n : ℕ) (inf : WarpInfluence α)
    (h : influenceIter n inf = none) : influenceIter (n + 1) inf = none := by
  induction n generalizing inf with
  | zero => simp [influenceIter] at h
  | succ n ih =>
    rw [influenceIter] at h ⊢
    split at h
    · rw [if_pos (by assumption)]
    · rw [if_neg (by assumption)]
      exact ih _ h

lemma influenceIter_none_mono (n m : ℕ) (hnm : n ≤ m) (inf : WarpInfluence α)
    (h : influenceIter n inf = none) : influenceIter m inf = none := by
  induction m with
  | zero =>
    rw [Nat.le_zero.1 hnm] at h
    exact h
  | succ m ih =>
    rcases Nat.lt_or_ge n (m + 1) with hlt | hge
    · exact influenceIter_none_step m inf (ih (by omega))
    · rw [show m + 1 = n by omega]
      exact h

lemma influenceStep_le_strength_mul_decay (inf : WarpInfluence ℝ)
    (hs : 0 ≤ inf.strength) (hd : 0 < inf.decay) :
    influenceStep inf ≤ inf.strength * inf.decay := by
  unfold influenceStep
  split
  · nlinarith
  · exact le_refl _

lemma influenceIter_surv (n : ℕ) : ∀ inf : WarpInfluence ℝ, 0 < inf.decay →
    influenceIter (n + 1) inf ≠ none → 1 ≤ inf.strength * inf.decay ^ (n + 1) := by
  induction n with
  | zero =>
    intro inf hd h
    rw [influenceIter] at h
    have hs1 : 1 ≤ influenceStep inf := by
      by_contra hlt
      exact h (by rw [if_pos (by linarith [lt_of_not_le hlt])])
    have hspos : 0 ≤ inf.strength := by
      by_contra hneg
      push_neg at hneg
      have : influenceStep inf < 1 := by
        unfold influenceStep
        split <;> nlinarith
      linarith
    have := influenceStep_le_strength_mul_decay inf hspos hd
    rw [pow_one]
    linarith
  | succ n ih =>
    intro inf hd h
    rw [influenceIter] at h
    by_cases hlt : influenceStep inf < 1
    · exact absurd (by rw [if_pos hlt]) h
    · rw [if_neg hlt] at h
      have hs1 : 1 ≤ influenceStep inf := not_lt.1 hlt
      have hih := ih { inf with strength := influenceStep inf } hd h
      have hspos : 0 ≤ inf.strength := by
        by_contra hneg
        push_neg at hneg
        have : influenceStep inf < 1 := by
          unfold influenceStep
          split <;> nlinarith
        linarith
      have hstep := influenceStep_le_strength_mul_decay inf hspos hd
      have hpow : (0:ℝ) ≤ inf.decay ^ (n + 1) := le_of_lt (pow_pos hd _)
      calc (1:ℝ) ≤ influenceStep inf * inf.decay ^ (n + 1) := hih
    _ ≤ (inf.strength * inf.decay) * inf.decay ^ (n + 1) :=
          mul_le_mul_of_nonneg_right hstep hpow
    _ = inf.strength * inf.decay ^ (n + 2) := by ring

lemma influenceIter_dies (inf : WarpInfluence ℝ) (hd : inf.decay < 1) :
    ∃ n, influenceIter n inf = none := by
  rcases le_or_lt inf.decay 0 with hd0 | hd0
  · -- nonpositive decay: dead within two steps
    refine ⟨2, ?_⟩
    rw [influenceIter]
    by_cases h1 : influenceStep inf < 1
    · rw [if_pos h1]
    · rw [if_neg h1]
      have hs1 : 1 ≤ influenceStep inf := not_lt.1 h1
      rw [influenceIter]
      have hfac : (if (20:ℝ) < influenceStep inf then inf.decay * (99/100) else inf.decay) ≤ 0 := by
        split <;> nlinarith
      rw [if_pos ?_]
      show influenceStep { inf with strength := influenceStep inf } < 1
      unfold influenceStep
      dsimp only
      have := mul_nonpos_of_nonneg_of_nonpos (by linarith : (0:ℝ) ≤ influenceStep inf) hfac
      calc influenceStep inf *
            (if 20 < influenceStep inf then inf.decay * (99 / 100) else inf.decay) ≤ 0 := this
        _ < 1 := by norm_num
  · -- decay in (0, 1)
    rcases le_or_lt inf.strength 0 with hs0 | hs0
    · refine ⟨1, ?_⟩
      rw [influenceIter]
      rw [if_pos ?_]
      unfold influenceStep
      have hfac : (0:ℝ) < (if (20:ℝ) < inf.strength then inf.decay * (99/100) else inf.decay) := by
        split <;> nlinarith
      nlinarith
    · obtain ⟨m, hm⟩ := exists_pow_lt_of_lt_one (show (0:ℝ) < 1 / inf.strength by positivity) hd
      refine ⟨m + 1, ?_⟩
      by_contra hne
      have hsurv := influenceIter_surv m inf hd0 hne
      have hple : inf.decay ^ (m + 1) ≤ inf.decay ^ m :=
        pow_le_pow_of_le_one (le_of_lt hd0) (le_of_lt hd) (by omega)
      have : inf.strength * inf.decay ^ (m + 1) < 1 := by
        calc inf.strength * inf.decay ^ (m + 1) ≤ inf.strength * inf.decay ^ m :=
              mul_le_mul_of_nonneg_left hple (le_of_lt hs0)
          _ < inf.strength * (1 / inf.strength) :=
              mul_lt_mul_of_pos_left hm hs0
          _ = 1 := by field_simp
      linarith

lemma updateInfluences_eventually_empty (l : List (WarpInfluence ℝ))
    (h : ∀ inf ∈ l, inf.decay < 1) : ∃ n, updateInfluences^[n] l = [] := by
  have hex : ∃ N, ∀ inf ∈ l, influenceIter N inf = none := by
    induction l with
    | nil => exact ⟨0, by simp⟩
    | cons inf l ih =>
      obtain ⟨N2, hN2⟩ := ih (fun i hi => h i (List.mem_cons_of_mem _ hi))
      obtain ⟨n1, hn1⟩ := influenceIter_dies inf (h inf (List.mem_cons_self _ _))
      refine ⟨max n1 N2, ?_⟩
      intro i hi
      rcases List.mem_cons.1 hi with rfl | hi
      · exact influenceIter_none_mono n1 _ (le_max_left _ _) _ hn1
      · exact influenceIter_none_mono N2 _ (le_max_right _ _) _ (hN2 i hi)
  obtain ⟨N, hN⟩ := hex
  refine ⟨N, ?_⟩
  rw [updateInfluences_iterate]
  rw [List.filterMap_eq_nil_iff]
  intro inf hinf
  rw [hN inf hinf]

/-- Claim C4 (amended): on each `update` call every influence's strength is
multiplied by its decay factor — times an extra 0.99 when the strength
exceeds 20 — so with decay < 1 and positive strength it strictly decreases
each call; an influence whose new strength falls below the removal threshold
1 is removed on that same step, so every surviving influence has strength at
least 1; and when every influence has decay < 1 the influence list empties
after finitely many update calls — no influence persists indefinitely. -/
theorem influence_decay_termination :
    (∀ (st : GridWarpState ℝ) (dt : ℝ),
      (update ⟨Real.sqrt, Real.sin⟩ st dt).influences = updateInfluences st.influences) ∧
    (∀ inf : WarpInfluence ℝ, 0 < inf.strength → inf.decay < 1 →
      influenceStep inf < inf.strength) ∧
    (∀ (l : List (WarpInfluence ℝ)), ∀ inf ∈ updateInfluences l, 1 ≤ inf.strength) ∧
    (∀ l : List (WarpInfluence ℝ), (∀ inf ∈ l, inf.decay < 1) →
      ∃ n, updateInfluences^[n] l = []) := by
  refine ⟨fun st dt => rfl, fun inf hs hd => ?_, fun l inf hmem => ?_, 
    updateInfluences_eventually_empty⟩
  · unfold influenceStep
    split
    · rcases le_or_lt inf.decay 0 with hd0 | hd0
      · nlinarith
      · nlinarith
    · rcases le_or_lt inf.decay 0 with hd0 | hd0
      · nlinarith
      · nlinarith
  · unfold updateInfluences at hmem
    rw [List.mem_filterMap] at hmem
    obtain ⟨i0, _, hi0⟩ := hmem
    dsimp only at hi0
    split at hi0
    · exact absurd hi0 (by simp)
    · have h2 : { i0 with strength := influenceStep i0 } = inf :=
        Option.some_injective _ hi0
      rw [← h2]
      exact not_lt.1 (by assumption)

/-- Counterexample to claim C4 as frozen: an influence with strength 100 and
decay 0.92 is not multiplied by its decay factor on the next update step —
because its strength exceeds 20 the code multiplies by 0.92 * 0.99 instead,
yielding 91.08, not 92. -/
theorem influence_decay_factor_cex :
    updateInfluences [(⟨⟨0, 0⟩, 100, 35, .push, 92/100⟩ : WarpInfluence ℝ)] =
      [⟨⟨0, 0⟩, 9108/100, 35, .push, 92/100⟩] ∧
    (9108/100 : ℝ) ≠ 100 * (92/100) := by
  constructor
  · unfold updateInfluences influenceStep
    rw [List.filterMap_cons]
    norm_num
  · norm_num

/-- Witness for the amended C4 at a concrete influence of strength 10 and
decay 1/2. -/
theorem influence_decay_termination_witness :
    (0:ℝ) < 10 ∧ (1/2 : ℝ) < 1 ∧
    influenceStep (⟨⟨0, 0⟩, 10, 35, .push, 1/2⟩ : WarpInfluence ℝ) < 10 ∧
    (∀ inf ∈ [(⟨⟨0, 0⟩, 10, 35, .push, 1/2⟩ : WarpInfluence ℝ)], inf.decay < 1) ∧
    (∃ n, updateInfluences^[n] [(⟨⟨0, 0⟩, 10, 35, .push, 1/2⟩ : WarpInfluence ℝ)] = []) := by
  refine ⟨by norm_num, by norm_num, ?_, ?_, ?_⟩
  · exact influence_decay_termination.2.1 _ (by norm_num) (by norm_num)
  · intro inf hinf
    rw [List.mem_singleton] at hinf
    rw [hinf]
    norm_num
  · refine influence_decay_termination.2.2.2 _ ?_
    intro inf hinf
    rw [List.mem_singleton] at hinf
    rw [hinf]
    norm_num

/-! ### Guarded force computation (claim C9) -/

lemma Vector2.magnitude_scaled (a b m : ℝ) :
    Vector2.magnitude Real.sqrt ⟨a * m, b * m⟩ =
      |m| * Vector2.magnitude Real.sqrt ⟨a, b⟩ := by
  unfold Vector2.magnitude
  dsimp only
  rw [show a * m * (a * m) + b * m * (b * m) = m ^ 2 * (a * a + b * b) by ring,
    Real.sqrt_mul (sq_nonneg m), Real.sqrt_sq_eq_abs]

lemma Vector2.magnitude_normalize_le_one (v : Vector2 ℝ) :
    (v.normalize Real.sqrt).magnitude Real.sqrt ≤ 1 := by
  by_cases hv : v = Vector2.zero
  · subst hv
    unfold Vector2.normalize Vector2.zero Vector2.magnitude
    norm_num
  · rw [Vector2.magnitude_normalize v hv]

lemma warpFalloff_le_and_pos (r d : ℝ) :
    warpFalloff r d ≤ 100/21 ∧ 0 < warpFalloff r d := by
  unfold warpFalloff
  set nd := max (1/10 : ℝ) (d / r) with hnd
  have h1 : (1/10 : ℝ) ≤ nd := le_max_left _ _
  have hden : (21/100 : ℝ) ≤ nd * nd + 1/5 := by nlinarith
  have hden0 : (0:ℝ) < nd * nd + 1/5 := by nlinarith
  constructor
  · calc (1:ℝ) / (nd * nd + 1/5) ≤ 1 / (21/100) :=
        one_div_le_one_div_of_le (by norm_num) hden
      _ = 100/21 := by norm_num
  · positivity

lemma Vector2.magnitude_neg_components (a b : ℝ) :
    Vector2.magnitude Real.sqrt ⟨-a, -b⟩ = Vector2.magnitude Real.sqrt ⟨a, b⟩ := by
  unfold Vector2.magnitude
  dsimp only
  ring_nf

/-- Claim C9: the force one influence contributes to one coarse cell is
guarded: the falloff is bounded by its clamped-proximity maximum 100/21
(no division by a vanishing denominator), any distance at or below the
epsilon floor radius/10 is clamped to exactly that maximal falloff, the
contribution's magnitude is bounded by |strength| * 100/21 (finite and
well-defined), and a zero-length difference vector normalizes to the zero
vector, so a cell centered exactly on the influence receives zero force. -/
theorem influence_force_guarded (cellSize : ℝ) (inf : WarpInfluence ℝ)
    (c : Vector2 ℝ) (hr : 0 < inf.radius) :
    warpFalloff inf.radius (c.distance Real.sqrt inf.position) ≤ 100/21 ∧
    (c.distance Real.sqrt inf.position ≤ inf.radius / 10 →
      warpFalloff inf.radius (c.distance Real.sqrt inf.position) = 100/21) ∧
    (influenceCellContrib ⟨Real.sqrt, Real.sin⟩ cellSize inf c).magnitude Real.sqrt ≤
      |inf.strength| * (100/21) ∧
    (c = inf.position →
      influenceCellContrib ⟨Real.sqrt, Real.sin⟩ cellSize inf c = Vector2.zero) := by
  have hmabs : |inf.strength *
      warpFalloff inf.radius (Vector2.distance Real.sqrt c inf.position)| ≤
      |inf.strength| * (100/21) := by
    rw [abs_mul, abs_of_pos (warpFalloff_le_and_pos _ _).2]
    exact mul_le_mul_of_nonneg_left (warpFalloff_le_and_pos _ _).1 (abs_nonneg _)
  have hdirle := Vector2.magnitude_normalize_le_one (c.subtract inf.position)
  refine ⟨(warpFalloff_le_and_pos _ _).1, fun hclose => ?_, ?_, fun hcp => ?_⟩
  · unfold warpFalloff
    have hdr : c.distance Real.sqrt inf.position / inf.radius ≤ 1/10 := by
      rw [div_le_iff₀ hr]
      linarith
    rw [max_eq_left hdr]
    norm_num
  · simp only [influenceCellContrib]
    split
    · cases htype : inf.type
      all_goals simp only [htype]
      · rw [Vector2.magnitude_scaled]
        calc |inf.strength * warpFalloff inf.radius
                (Vector2.distance Real.sqrt c inf.position)| *
              Vector2.magnitude Real.sqrt
                ⟨(Vector2.normalize Real.sqrt (c.subtract inf.position)).x,
                 (Vector2.normalize Real.sqrt (c.subtract inf.position)).y⟩
            ≤ |inf.strength * warpFalloff inf.radius
                (Vector2.distance Real.sqrt c inf.position)| * 1 :=
              mul_le_mul_of_nonneg_left hdirle (abs_nonneg _)
          _ = |inf.strength * warpFalloff inf.radius
                (Vector2.distance Real.sqrt c inf.position)| := mul_one _
          _ ≤ |inf.strength| * (100/21) := hmabs
      · rw [Vector2.magnitude_neg_components, Vector2.magnitude_scaled]
        calc |inf.strength * warpFalloff inf.radius
                (Vector2.distance Real.sqrt c inf.position)| *
              Vector2.magnitude Real.sqrt
                ⟨(Vector2.normalize Real.sqrt (c.subtract inf.position)).x,
                 (Vector2.normalize Real.sqrt (c.subtract inf.position)).y⟩
            ≤ |inf.strength * warpFalloff inf.radius
                (Vector2.distance Real.sqrt c inf.position)| * 1 :=
              mul_le_mul_of_nonneg_left hdirle (abs_nonneg _)
          _ = |inf.strength * warpFalloff inf.radius
                (Vector2.distance Real.sqrt c inf.position)| := mul_one _
          _ ≤ |inf.strength| * (100/21) := hmabs
    · unfold Vector2.zero Vector2.magnitude
      dsimp only
      rw [show (0:ℝ) * 0 + 0 * 0 = 0 by ring, Real.sqrt_zero]
      positivity
  · subst hcp
    have hdirzero : (inf.position.subtract inf.position).normalize Real.sqrt
        = Vector2.zero := by
      rw [show inf.position.subtract inf.position = Vector2.zero by
        unfold Vector2.subtract Vector2.zero
        norm_num]
      unfold Vector2.normalize Vector2.zero Vector2.magnitude
      norm_num
    simp only [influenceCellContrib]
    split
    · cases htype : inf.type
      all_goals simp only [htype, hdirzero]
      all_goals unfold Vector2.zero
      all_goals norm_num
    · rfl

/-- Witness for C9 at an influence of radius 10 and strength 7, against the
cell center (3, 4). -/
theorem influence_force_guarded_witness :
    (0:ℝ) < 10 ∧
    warpFalloff (10:ℝ)
      (Vector2.distance Real.sqrt ⟨3, 4⟩
        (⟨⟨0, 0⟩, 7, 10, .push, 9/10⟩ : WarpInfluence ℝ).position) ≤ 100/21 ∧
    (influenceCellContrib ⟨Real.sqrt, Real.sin⟩ 10
        (⟨⟨0, 0⟩, 7, 10, .push, 9/10⟩ : WarpInfluence ℝ)
        ⟨3, 4⟩).magnitude Real.sqrt ≤ |(7:ℝ)| * (100/21) := by
  have h := influence_force_guarded 10 (⟨⟨0, 0⟩, 7, 10, .push, 9/10⟩ : WarpInfluence ℝ)
    ⟨3, 4⟩ (by norm_num)
  exact ⟨by norm_num, h.1, h.2.2.1⟩

/-! ### The displacement bound (claim C3) -/

lemma softClamp_displacement_le (maxD ox oy : ℝ) (pos vel : Vector2 ℝ)
    (hmax : 0 ≤ maxD) :
    Real.sqrt
      (((softClamp ⟨Real.sqrt, Real.sin⟩ maxD ox oy pos vel).1.x - ox) *
        ((softClamp ⟨Real.sqrt, Real.sin⟩ maxD ox oy pos vel).1.x - ox) +
       ((softClamp ⟨Real.sqrt, Real.sin⟩ maxD ox oy pos vel).1.y - oy) *
        ((softClamp ⟨Real.sqrt, Real.sin⟩ maxD ox oy pos vel).1.y - oy)) ≤ maxD := by
  simp only [softClamp]
  set CD := Real.sqrt ((pos.x - ox) * (pos.x - ox) + (pos.y - oy) * (pos.y - oy)) with hCD
  split
  next h =>
    dsimp only
    have hCDpos : 0 < CD := lt_of_le_of_lt hmax h
    have hargnn : 0 ≤ (pos.x - ox) * (pos.x - ox) + (pos.y - oy) * (pos.y - oy) :=
      add_nonneg (mul_self_nonneg _) (mul_self_nonneg _)
    have hmin0 : 0 ≤ min 1 ((CD - maxD) / 10) :=
      le_min (by norm_num) (div_nonneg (by linarith) (by norm_num))
    have hmin1 : min 1 ((CD - maxD) / 10) ≤ 1 := min_le_left _ _
    have harg : (ox + (pos.x - ox) * (maxD / CD) * (1 - min 1 ((CD - maxD) / 10)) - ox) *
          (ox + (pos.x - ox) * (maxD / CD) * (1 - min 1 ((CD - maxD) / 10)) - ox) +
        (oy + (pos.y - oy) * (maxD / CD) * (1 - min 1 ((CD - maxD) / 10)) - oy) *
          (oy + (pos.y - oy) * (maxD / CD) * (1 - min 1 ((CD - maxD) / 10)) - oy) =
        (maxD / CD * (1 - min 1 ((CD - maxD) / 10))) ^ 2 *
          ((pos.x - ox) * (pos.x - ox) + (pos.y - oy) * (pos.y - oy)) := by
      ring
    rw [harg, Real.sqrt_mul (sq_nonneg _), Real.sqrt_sq_eq_abs, ← hCD]
    rw [abs_of_nonneg (mul_nonneg (div_nonneg hmax hCDpos.le) (by linarith) :
      (0:ℝ) ≤ maxD / CD * (1 - min 1 ((CD - maxD) / 10)))]
    rw [show maxD / CD * (1 - min 1 ((CD - maxD) / 10)) * CD =
        maxD * (1 - min 1 ((CD - maxD) / 10)) * (CD / CD) by ring,
      div_self (ne_of_gt hCDpos), mul_one]
    nlinarith
  next h =>
    exact not_lt.1 h

lemma getD_map_range {β : Type} (f : ℕ → β) (n i : ℕ) (d : β) (h : i < n) :
    ((List.range n).map f).getD i d = f i := by
  rw [List.getD_eq_getElem?_getD, List.getElem?_map, List.getElem?_range h]
  rfl

set_option maxHeartbeats 1000000 in
lemma updatePoint_displacement_le (spring damping maxD g fdt : ℝ) (force : Vector2 ℝ)
    (row col : ℕ) (p : GridPoint ℝ) (hmax : 0 ≤ maxD) :
    Real.sqrt
      (((updatePoint ⟨Real.sqrt, Real.sin⟩ spring damping maxD g fdt force row col p).x -
          (col : ℝ) * g) *
        ((updatePoint ⟨Real.sqrt, Real.sin⟩ spring damping maxD g fdt force row col p).x -
          (col : ℝ) * g) +
       ((updatePoint ⟨Real.sqrt, Real.sin⟩ spring damping maxD g fdt force row col p).y -
          (row : ℝ) * g) *
        ((updatePoint ⟨Real.sqrt, Real.sin⟩ spring damping maxD g fdt force row col p).y -
          (row : ℝ) * g)) ≤ maxD := by
  simp only [updatePoint]
  exact softClamp_displacement_le maxD _ _ _ _ hmax

/-- Claim C3: after every `update(deltaTime)` call, every lattice point's
distance from its rest position `(col * gridSize, row * gridSize)` is at most
the configured (nonnegative) `maxDisplacement`, whatever the prior state,
the influences, and their strengths: the final soft clamp enforces the
bound unconditionally. -/
theorem update_displacement_le_max (st : GridWarpState ℝ) (dt : ℝ) (r c : ℕ)
    (hmax : 0 ≤ st.maxDisplacement) (hr : r < st.rows) (hc : c < st.cols) :
    Real.sqrt
      (((((update ⟨Real.sqrt, Real.sin⟩ st dt).gridPoints.getD r []).getD c
            ⟨0, 0, 0, 0, Vector2.zero, 1⟩).x - (c : ℝ) * st.gridSize) *
        ((((update ⟨Real.sqrt, Real.sin⟩ st dt).gridPoints.getD r []).getD c
            ⟨0, 0, 0, 0, Vector2.zero, 1⟩).x - (c : ℝ) * st.gridSize) +
       ((((update ⟨Real.sqrt, Real.sin⟩ st dt).gridPoints.getD r []).getD c
            ⟨0, 0, 0, 0, Vector2.zero, 1⟩).y - (r : ℝ) * st.gridSize) *
        ((((update ⟨Real.sqrt, Real.sin⟩ st dt).gridPoints.getD r []).getD c
            ⟨0, 0, 0, 0, Vector2.zero, 1⟩).y - (r : ℝ) * st.gridSize)) ≤
      st.maxDisplacement := by
  simp only [update]
  rw [getD_map_range _ _ _ _ hr, getD_map_range _ _ _ _ hc]
  exact updatePoint_displacement_le _ _ _ _ _ _ _ _ _ hmax

/-- Witness for C3 on a one-point lattice at rest. -/
theorem update_displacement_le_max_witness :
    (0:ℝ) ≤ 25 ∧ 0 < 1 ∧
    Real.sqrt
      (((((update ⟨Real.sqrt, Real.sin⟩
            ⟨5, 5, 5, 1, 1, [[⟨0, 0, 0, 0, Vector2.zero, 1⟩]], [], 8/100, 95/100, 25⟩
            (1/30)).gridPoints.getD 0 []).getD 0
            ⟨0, 0, 0, 0, Vector2.zero, 1⟩).x - ((0:ℕ) : ℝ) * (5:ℝ)) *
        ((((update ⟨Real.sqrt, Real.sin⟩
            ⟨5, 5, 5, 1, 1, [[⟨0, 0, 0, 0, Vector2.zero, 1⟩]], [], 8/100, 95/100, 25⟩
            (1/30)).gridPoints.getD 0 []).getD 0
            ⟨0, 0, 0, 0, Vector2.zero, 1⟩).x - ((0:ℕ) : ℝ) * (5:ℝ)) +
       ((((update ⟨Real.sqrt, Real.sin⟩
            ⟨5, 5, 5, 1, 1, [[⟨0, 0, 0, 0, Vector2.zero, 1⟩]], [], 8/100, 95/100, 25⟩
            (1/30)).gridPoints.getD 0 []).getD 0
            ⟨0, 0, 0, 0, Vector2.zero, 1⟩).y - ((0:ℕ) : ℝ) * (5:ℝ)) *
        ((((update ⟨Real.sqrt, Real.sin⟩
            ⟨5, 5, 5, 1, 1, [[⟨0, 0, 0, 0, Vector2.zero, 1⟩]], [], 8/100, 95/100, 25⟩
            (1/30)).gridPoints.getD 0 []).getD 0
            ⟨0, 0, 0, 0, Vector2.zero, 1⟩).y - ((0:ℕ) : ℝ) * (5:ℝ))) ≤ (25:ℝ) := by
  refine ⟨by norm_num, by norm_num, ?_⟩
  exact update_displacement_le_max
    ⟨5, 5, 5, 1, 1, [[⟨0, 0, 0, 0, Vector2.zero, 1⟩]], [], 8/100, 95/100, 25⟩
    (1/30) 0 0 (by norm_num) (by norm_num) (by norm_num)

/-! ### Healing-speed ordering (claim C8): one concrete explosion scenario

A 2-by-2 lattice with `gridSize = 5` on a 5-by-5 canvas, at rest, a single
`addExplosionWarp((2,1), 2)` and one `update(1/30)` step. -/

lemma c8_sqrt_25 : Real.sqrt 25 = 5 := by
  rw [show (25:ℝ) = 5^2 by norm_num, Real.sqrt_sq (by norm_num : (0:ℝ) ≤ 5)]

lemma c8_ceil_35_10 : ⌈(35:ℝ)/10⌉ = 4 := by
  rw [Int.ceil_eq_iff]; constructor <;> norm_num

lemma c8_ceil_5_10 : ⌈(5:ℝ)/10⌉ = 1 := by
  rw [Int.ceil_eq_iff]; constructor <;> norm_num

lemma c8_influences :
    updateInfluences ((addExplosionWarp (⟨2, 1⟩ : Vector2 ℝ) 2).1) =
      [⟨⟨2, 1⟩, 27027/125, 35, .push, 91/100⟩] := by
  simp only [addExplosionWarp, updateInfluences, List.filterMap_cons, List.filterMap_nil,
    influenceStep]
  norm_num

lemma c8_inScatter :
    inScatterRange (10:ℝ) 2 2 ⟨⟨2, 1⟩, 27027/125, 35, .push, 91/100⟩ 0 0 = true := by
  simp only [inScatterRange, c8_ceil_35_10]
  norm_num

lemma c8_maxnd : max (1/10 : ℝ) (5/35) = 1/7 := by
  rw [show (5:ℝ)/35 = 1/7 by norm_num]
  exact max_eq_right (by norm_num)

lemma c8_cell :
    influenceMapCell ⟨Real.sqrt, Real.sin⟩ (10:ℝ) 2 2
      [⟨⟨2, 1⟩, 27027/125, 35, .push, 91/100⟩] 0 0 =
      (⟨3/5 * (49049/50), 4/5 * (49049/50)⟩, 1) := by
  simp only [influenceMapCell, List.foldl_cons, List.foldl_nil, c8_inScatter, if_true]
  norm_num [Vector2.distance, Vector2.subtract, Vector2.magnitude, Vector2.normalize,
    Vector2.divide, Vector2.add, Vector2.zero, warpFalloff, influenceCellContrib,
    c8_sqrt_25, c8_maxnd]

lemma softClamp_noClamp_sqrt (maxD ox oy a b K : ℝ) (vel : Vector2 ℝ)
    (hK : 0 ≤ K) (hKle : K ≤ maxD) (hab : a * a + b * b = K ^ 2) :
    Real.sqrt
      (((softClamp ⟨Real.sqrt, Real.sin⟩ maxD ox oy ⟨ox + a, oy + b⟩ vel).1.x - ox) *
        ((softClamp ⟨Real.sqrt, Real.sin⟩ maxD ox oy ⟨ox + a, oy + b⟩ vel).1.x - ox) +
       ((softClamp ⟨Real.sqrt, Real.sin⟩ maxD ox oy ⟨ox + a, oy + b⟩ vel).1.y - oy) *
        ((softClamp ⟨Real.sqrt, Real.sin⟩ maxD ox oy ⟨ox + a, oy + b⟩ vel).1.y - oy)) = K := by
  have harg : (ox + a - ox) * (ox + a - ox) + (oy + b - oy) * (oy + b - oy) = K ^ 2 := by
    rw [← hab]; ring
  simp only [softClamp]
  rw [harg, Real.sqrt_sq hK, if_neg (not_lt.2 hKle)]
  dsimp only
  rw [harg, Real.sqrt_sq hK]

lemma c8_point (sc d px py : ℝ) (row col : ℕ)
    (hpx : px = (col:ℝ) * 5) (hpy : py = (row:ℝ) * 5)
    (hpd : 0 ≤ d + Real.sin ((col:ℝ) + (row:ℝ)) * (1/100))
    (hcl : (d + Real.sin ((col:ℝ) + (row:ℝ)) * (1/100)) *
      (if (35/100:ℝ) ≤ sc then (12/10:ℝ) else 1) ≤ 20) :
    Real.sqrt
      (((updatePoint ⟨Real.sqrt, Real.sin⟩ sc d 25 5 (1/30)
            ⟨3/5 * (49049/50), 4/5 * (49049/50)⟩ row col
            ⟨px, py, px, py, Vector2.zero, 1⟩).x -
          (col:ℝ) * 5) *
        ((updatePoint ⟨Real.sqrt, Real.sin⟩ sc d 25 5 (1/30)
            ⟨3/5 * (49049/50), 4/5 * (49049/50)⟩ row col
            ⟨px, py, px, py, Vector2.zero, 1⟩).x -
          (col:ℝ) * 5) +
       ((updatePoint ⟨Real.sqrt, Real.sin⟩ sc d 25 5 (1/30)
            ⟨3/5 * (49049/50), 4/5 * (49049/50)⟩ row col
            ⟨px, py, px, py, Vector2.zero, 1⟩).y -
          (row:ℝ) * 5) *
        ((updatePoint ⟨Real.sqrt, Real.sin⟩ sc d 25 5 (1/30)
            ⟨3/5 * (49049/50), 4/5 * (49049/50)⟩ row col
            ⟨px, py, px, py, Vector2.zero, 1⟩).y -
          (row:ℝ) * 5)) =
      (d + Real.sin ((col:ℝ) + (row:ℝ)) * (1/100)) *
        (if (35/100:ℝ) ≤ sc then (12/10:ℝ) else 1) * (49049/45000) := by
  subst hpx
  subst hpy
  simp only [updatePoint, Vector2.zero, sub_self, mul_zero, zero_mul, add_zero, zero_add,
    Real.sqrt_zero]
  by_cases hsc : (35/100:ℝ) ≤ sc
  · rw [if_pos hsc] at hcl
    simp only [if_pos hsc, if_pos (show (0:ℝ) < 8/10 by norm_num)]
    exact softClamp_noClamp_sqrt 25 ((col:ℝ) * 5) ((row:ℝ) * 5)
      ((0 + 3/5 * (49049/50) * (1/30) * (1/1)) *
        ((d + Real.sin ((col:ℝ) + (row:ℝ)) * (1/100)) * (12/10)) * (1/30))
      ((0 + 4/5 * (49049/50) * (1/30) * (1/1)) *
        ((d + Real.sin ((col:ℝ) + (row:ℝ)) * (1/100)) * (12/10)) * (1/30))
      ((d + Real.sin ((col:ℝ) + (row:ℝ)) * (1/100)) * (12/10) * (49049/45000)) _
      (by nlinarith [hpd]) (by nlinarith [hpd, hcl]) (by ring)
  · rw [if_neg hsc] at hcl
    simp only [if_neg hsc]
    exact softClamp_noClamp_sqrt 25 ((col:ℝ) * 5) ((row:ℝ) * 5)
      ((0 + 3/5 * (49049/50) * (1/30) * (1/1)) *
        ((d + Real.sin ((col:ℝ) + (row:ℝ)) * (1/100)) * 1) * (1/30))
      ((0 + 4/5 * (49049/50) * (1/30) * (1/1)) *
        ((d + Real.sin ((col:ℝ) + (row:ℝ)) * (1/100)) * 1) * (1/30))
      ((d + Real.sin ((col:ℝ) + (row:ℝ)) * (1/100)) * 1 * (49049/45000)) _
      (by nlinarith [hpd]) (by nlinarith [hpd, hcl]) (by ring)

lemma c8_meanD (sc d : ℝ) (hd1 : 1/100 ≤ d) (hd2 : d ≤ 1) :
    meanDisplacement ⟨Real.sqrt, Real.sin⟩
      (update ⟨Real.sqrt, Real.sin⟩
        ⟨5, 5, 5, 2, 2,
         [[⟨0, 0, 0, 0, Vector2.zero, 1⟩, ⟨5, 0, 5, 0, Vector2.zero, 1⟩],
          [⟨0, 5, 0, 5, Vector2.zero, 1⟩, ⟨5, 5, 5, 5, Vector2.zero, 1⟩]],
         (addExplosionWarp ⟨2, 1⟩ 2).1, sc, d, 25⟩ (1/30)) =
      (4 * d + (2 * Real.sin 1 + Real.sin 2) * (1/100)) *
        (if (35/100:ℝ) ≤ sc then (12/10:ℝ) else 1) * (49049/180000) := by
  have hsin : ∀ t : ℝ, 0 ≤ d + Real.sin t * (1/100) := fun t => by
    nlinarith [Real.neg_one_le_sin t, hd1]
  have hclh : ∀ t : ℝ, (d + Real.sin t * (1/100)) *
      (if (35/100:ℝ) ≤ sc then (12/10:ℝ) else 1) ≤ 20 := fun t => by
    have h1 := Real.sin_le_one t
    have h2 := Real.neg_one_le_sin t
    split <;> nlinarith
  have hgd0 : ∀ (a b : List (GridPoint ℝ)) c, [a, b].getD 0 c = a := fun _ _ _ => rfl
  have hgd1 : ∀ (a b : List (GridPoint ℝ)) c, [a, b].getD 1 c = b := fun _ _ _ => rfl
  have hqd0 : ∀ (a b : GridPoint ℝ) c, [a, b].getD 0 c = a := fun _ _ _ => rfl
  have hqd1 : ∀ (a b : GridPoint ℝ) c, [a, b].getD 1 c = b := fun _ _ _ => rfl
  have hf0 : ⌊((0:ℕ):ℝ) * 5 / 10⌋ = 0 := by norm_num
  have hf1 : ⌊((1:ℕ):ℝ) * 5 / 10⌋ = 0 := by norm_num
  simp only [meanDisplacement, update]
  rw [show (1:ℝ)/30 ⊓ 1/30 = 1/30 from min_self _]
  rw [show (5:ℝ) * 2 = 10 by norm_num]
  rw [c8_ceil_5_10]
  rw [show (1:ℤ) + 1 = 2 by norm_num]
  rw [c8_influences]
  rw [show List.range 2 = [0, 1] from rfl]
  simp only [List.map_cons, List.map_nil]
  rw [hf0, hf1]
  rw [if_pos (show (0:ℤ) ≤ 0 ∧ (0:ℤ) < 2 ∧ (0:ℤ) ≤ 0 ∧ (0:ℤ) < 2 by decide)]
  rw [c8_cell]
  dsimp only
  rw [if_pos (show (0:ℕ) < 1 by norm_num)]
  simp only [hgd0, hgd1, hqd0, hqd1]
  rw [c8_point sc d 0 0 0 0 (by norm_num) (by norm_num) (hsin _) (hclh _),
      c8_point sc d 5 0 0 1 (by norm_num) (by norm_num) (hsin _) (hclh _),
      c8_point sc d 0 5 1 0 (by norm_num) (by norm_num) (hsin _) (hclh _),
      c8_point sc d 5 5 1 1 (by norm_num) (by norm_num) (hsin _) (hclh _)]
  simp only [List.sum_cons, List.sum_nil]
  push_cast
  norm_num [Real.sin_zero]
  by_cases h : (7/20:ℝ) ≤ sc
  · simp only [if_pos h]
    ring
  · simp only [if_neg h]
    ring

/-- Claim C8 (amended): starting from the same at-rest 2-by-2 lattice
(`gridSize = 5`, 5-by-5 canvas) hit by the same single
`addExplosionWarp((2,1), 2)` pulse, after one `update(1/30)` step the mean
residual lattice displacement is ordered `slow ≥ medium ≥ fast` across the
presets, but the `instant` preset's residual strictly exceeds `fast`'s: its
effective per-step damping `0.75 * 1.2 = 0.9` retains more velocity than
`fast`'s `0.85`, so the frozen full ordering `slow ≥ medium ≥ fast ≥ instant`
does not hold at this elapsed time. -/
theorem healing_speed_one_step_order :
    meanDisplacement ⟨Real.sqrt, Real.sin⟩
          (update ⟨Real.sqrt, Real.sin⟩
            ⟨5, 5, 5, 2, 2,
             [[⟨0, 0, 0, 0, Vector2.zero, 1⟩, ⟨5, 0, 5, 0, Vector2.zero, 1⟩],
              [⟨0, 5, 0, 5, Vector2.zero, 1⟩, ⟨5, 5, 5, 5, Vector2.zero, 1⟩]],
             (addExplosionWarp ⟨2, 1⟩ 2).1,
             (setHealingSpeed HealingSpeed.medium).1, (setHealingSpeed HealingSpeed.medium).2, 25⟩ (1/30)) ≤
    meanDisplacement ⟨Real.sqrt, Real.sin⟩
          (update ⟨Real.sqrt, Real.sin⟩
            ⟨5, 5, 5, 2, 2,
             [[⟨0, 0, 0, 0, Vector2.zero, 1⟩, ⟨5, 0, 5, 0, Vector2.zero, 1⟩],
              [⟨0, 5, 0, 5, Vector2.zero, 1⟩, ⟨5, 5, 5, 5, Vector2.zero, 1⟩]],
             (addExplosionWarp ⟨2, 1⟩ 2).1,
             (setHealingSpeed HealingSpeed.slow).1, (setHealingSpeed HealingSpeed.slow).2, 25⟩ (1/30)) ∧
    meanDisplacement ⟨Real.sqrt, Real.sin⟩
          (update ⟨Real.sqrt, Real.sin⟩
            ⟨5, 5, 5, 2, 2,
             [[⟨0, 0, 0, 0, Vector2.zero, 1⟩, ⟨5, 0, 5, 0, Vector2.zero, 1⟩],
              [⟨0, 5, 0, 5, Vector2.zero, 1⟩, ⟨5, 5, 5, 5, Vector2.zero, 1⟩]],
             (addExplosionWarp ⟨2, 1⟩ 2).1,
             (setHealingSpeed HealingSpeed.fast).1, (setHealingSpeed HealingSpeed.fast).2, 25⟩ (1/30)) ≤
    meanDisplacement ⟨Real.sqrt, Real.sin⟩
          (update ⟨Real.sqrt, Real.sin⟩
            ⟨5, 5, 5, 2, 2,
             [[⟨0, 0, 0, 0, Vector2.zero, 1⟩, ⟨5, 0, 5, 0, Vector2.zero, 1⟩],
              [⟨0, 5, 0, 5, Vector2.zero, 1⟩, ⟨5, 5, 5, 5, Vector2.zero, 1⟩]],
             (addExplosionWarp ⟨2, 1⟩ 2).1,
             (setHealingSpeed HealingSpeed.medium).1, (setHealingSpeed HealingSpeed.medium).2, 25⟩ (1/30)) ∧
    meanDisplacement ⟨Real.sqrt, Real.sin⟩
          (update ⟨Real.sqrt, Real.sin⟩
            ⟨5, 5, 5, 2, 2,
             [[⟨0, 0, 0, 0, Vector2.zero, 1⟩, ⟨5, 0, 5, 0, Vector2.zero, 1⟩],
              [⟨0, 5, 0, 5, Vector2.zero, 1⟩, ⟨5, 5, 5, 5, Vector2.zero, 1⟩]],
             (addExplosionWarp ⟨2, 1⟩ 2).1,
             (setHealingSpeed HealingSpeed.fast).1, (setHealingSpeed HealingSpeed.fast).2, 25⟩ (1/30)) <
    meanDisplacement ⟨Real.sqrt, Real.sin⟩
          (update ⟨Real.sqrt, Real.sin⟩
            ⟨5, 5, 5, 2, 2,
             [[⟨0, 0, 0, 0, Vector2.zero, 1⟩, ⟨5, 0, 5, 0, Vector2.zero, 1⟩],
              [⟨0, 5, 0, 5, Vector2.zero, 1⟩, ⟨5, 5, 5, 5, Vector2.zero, 1⟩]],
             (addExplosionWarp ⟨2, 1⟩ 2).1,
             (setHealingSpeed HealingSpeed.instant).1, (setHealingSpeed HealingSpeed.instant).2, 25⟩ (1/30)) := by
  rw [c8_meanD (setHealingSpeed HealingSpeed.slow).1 (setHealingSpeed HealingSpeed.slow).2
        (by norm_num [setHealingSpeed]) (by norm_num [setHealingSpeed]),
      c8_meanD (setHealingSpeed HealingSpeed.medium).1 (setHealingSpeed HealingSpeed.medium).2
        (by norm_num [setHealingSpeed]) (by norm_num [setHealingSpeed]),
      c8_meanD (setHealingSpeed HealingSpeed.fast).1 (setHealingSpeed HealingSpeed.fast).2
        (by norm_num [setHealingSpeed]) (by norm_num [setHealingSpeed]),
      c8_meanD (setHealingSpeed HealingSpeed.instant).1 (setHealingSpeed HealingSpeed.instant).2
        (by norm_num [setHealingSpeed]) (by norm_num [setHealingSpeed])]
  simp only [setHealingSpeed]
  norm_num
  nlinarith [Real.neg_one_le_sin 1, Real.sin_le_one 1, Real.neg_one_le_sin 2,
    Real.sin_le_one 2]

/-- Counterexample to claim C8 as frozen: in the same canonical scenario the
`instant` preset leaves a strictly larger one-step mean residual displacement
than the `fast` preset, refuting the claimed `fast ≥ instant` leg of the
ordering. -/
theorem healing_speed_order_cex :
    ¬ (meanDisplacement ⟨Real.sqrt, Real.sin⟩
              (update ⟨Real.sqrt, Real.sin⟩
                ⟨5, 5, 5, 2, 2,
                 [[⟨0, 0, 0, 0, Vector2.zero, 1⟩, ⟨5, 0, 5, 0, Vector2.zero, 1⟩],
                  [⟨0, 5, 0, 5, Vector2.zero, 1⟩, ⟨5, 5, 5, 5, Vector2.zero, 1⟩]],
                 (addExplosionWarp ⟨2, 1⟩ 2).1,
                 (setHealingSpeed HealingSpeed.instant).1, (setHealingSpeed HealingSpeed.instant).2, 25⟩ (1/30)) ≤
       meanDisplacement ⟨Real.sqrt, Real.sin⟩
              (update ⟨Real.sqrt, Real.sin⟩
                ⟨5, 5, 5, 2, 2,
                 [[⟨0, 0, 0, 0, Vector2.zero, 1⟩, ⟨5, 0, 5, 0, Vector2.zero, 1⟩],
                  [⟨0, 5, 0, 5, Vector2.zero, 1⟩, ⟨5, 5, 5, 5, Vector2.zero, 1⟩]],
                 (addExplosionWarp ⟨2, 1⟩ 2).1,
                 (setHealingSpeed HealingSpeed.fast).1, (setHealingSpeed HealingSpeed.fast).2, 25⟩ (1/30))) := by
  rw [not_le,
      c8_meanD (setHealingSpeed HealingSpeed.fast).1 (setHealingSpeed HealingSpeed.fast).2
        (by norm_num [setHealingSpeed]) (by norm_num [setHealingSpeed]),
      c8_meanD (setHealingSpeed HealingSpeed.instant).1 (setHealingSpeed HealingSpeed.instant).2
        (by norm_num [setHealingSpeed]) (by norm_num [setHealingSpeed])]
  simp only [setHealingSpeed]
  norm_num
  nlinarith [Real.neg_one_le_sin 1, Real.sin_le_one 1, Real.neg_one_le_sin 2,
    Real.sin_le_one 2]
